import Mathlib

/-!
# Package signature subsystem (lib/signature.c)

A shallow embedding of the size check, of the verification engine
`rpmVerifySignature` with its five verifiers, of the signature reader and
writer `rpmReadSignature` / `rpmWriteSignature`, and of the signing entry
point `rpmAddSignature`, followed by the properties proved about them.

Conventions of the embedding.

* C `int` / `int_32` values are `Int`; a conversion to `int` is the explicit
  wrap `toInt32`.  Bytes are `Nat` values below 256.
* A nullable pointer is an `Option`.
* The text buffer a verifier writes its diagnostic into is an `OutBuf`: the
  memory before the cursor `t` and the memory from `t` on.  The diagnostic the
  caller sees is the C string at the start of that memory.
* Digest contexts live in a small heap (`rpmts.heap`), so that the identity of
  a context and its release by `rpmDigestFinal` are visible.
* The keyring lookup and the big-number primitives are parameters (`Env`);
  every call to one of them is recorded in `rpmts.calls`.
* The header codec is a parameter (`Codec`), and so are the external signers
  and the file system the signing entry point works on (`SignEnv`).  A file
  being read is its bytes and a position (`FD`); a file being written is the
  bytes emitted so far and the room left (`OutFD`).
-/

namespace RpmSig

/-! ## Machine integers -/

/-- Conversion of an integer value to a C `int` (32 bits, two's complement). -/
def toInt32 (x : Int) : Int := (x + 2147483648) % 4294967296 - 2147483648

/-- The `int_32` that `memcpy(&size, sig, sizeof(size))` reads from the first
four bytes at `sig` (host byte order, taken little-endian; a byte that is not
there reads as zero). -/
def hostInt32 (sig : List Nat) : Int :=
  toInt32 (((sig.getD 0 0) % 256 + 256 * ((sig.getD 1 0) % 256)
    + 65536 * ((sig.getD 2 0) % 256) + 16777216 * ((sig.getD 3 0) % 256) : Nat) : Int)

/-- The four bytes of an `int_32` in host byte order (little-endian). -/
def int32Bytes (v : Int) : List Nat :=
  let u := (v % 4294967296).toNat
  [u % 256, u / 256 % 256, u / 65536 % 256, u / 16777216 % 256]

/-! ## Return codes -/

/-- The read-path return codes used by lib/signature.c. -/
inductive rpmRC where
  | RPMRC_OK
  | RPMRC_FAIL
  | RPMRC_BADSIZE
  | RPMRC_SHORTREAD
  deriving DecidableEq, Repr

/-- Verdict of a signature verification. -/
inductive rpmVerifySignatureReturn where
  | RPMSIG_OK
  | RPMSIG_UNKNOWN
  | RPMSIG_BAD
  | RPMSIG_NOKEY
  | RPMSIG_NOTTRUSTED
  deriving DecidableEq, Repr

open rpmRC rpmVerifySignatureReturn

/-! ## checkSize -/

/-- What `fstat` reports about the package file: whether it is a regular file
(`S_ISREG(st.st_mode)`) and its length `st.st_size`. -/
structure Stat where
  isReg : Bool
  st_size : Nat
  deriving DecidableEq, Repr

/-- The mathematical difference between the expected and the actual length of
the package file: `sizeof(lead) + siglen + pad + datalen - st_size`. -/
def sizeDifference (sizeofLead : Nat) (siglen pad datalen : Int) (st_size : Nat) : Int :=
  (sizeofLead : Int) + siglen + pad + datalen - (st_size : Int)

/-- The function `checkSize`.  `sizeofLead` is `sizeof(struct rpmlead)` (its
declaration is in rpmlead.h); `st` is the result of `fstat`, `none` when it
fails.  The difference is computed in `size_t` / `off_t` (wider than 32 bits
wherever a file can be longer than 2 GiB) and stored into `int delta`, which
keeps its low 32 bits.  The two `rpmMessage` calls only log. -/
def checkSize (sizeofLead : Nat) (st : Option Stat) (siglen pad datalen : Int) : rpmRC :=
  match st with
  | none => RPMRC_FAIL
  | some st =>
    if st.isReg = false then RPMRC_OK
    else
      let delta := toInt32 (sizeDifference sizeofLead siglen pad datalen st.st_size)
      if delta = -32 ∨ delta = 32 ∨ delta = 0 then RPMRC_OK else RPMRC_BADSIZE

/-! ## C strings and the diagnostic buffer -/

/-- The terminating character of a C string. -/
def NUL : Char := Char.ofNat 0

/-- The C string that starts at the beginning of a piece of memory. -/
def cstr (mem : List Char) : List Char := mem.takeWhile (fun c => c != NUL)

/-- A character buffer together with the cursor `t` into it: `done` is the
memory before `t`, `rest` the memory from `t` on. -/
structure OutBuf where
  done : List Char
  rest : List Char
  deriving DecidableEq, Repr

namespace OutBuf

/-- The pointer `t = result` at the start of the caller's buffer. -/
def start (result : List Char) : OutBuf := ⟨[], result⟩

/-- Writing the string `s` and its terminator at `t` without moving `t`
(`*t = 0` for the empty string, `sprintf(t, ...)`, `(void) pgpHexCvt(t, ...)`). -/
def write (b : OutBuf) (s : List Char) : OutBuf :=
  ⟨b.done, s ++ NUL :: b.rest.drop (s.length + 1)⟩

/-- The statement `t += strlen(t)`. -/
def skip (b : OutBuf) : OutBuf :=
  ⟨b.done ++ cstr b.rest, b.rest.drop (cstr b.rest).length⟩

/-- The statement `t = stpcpy(t, s)`: copy `s` with its terminator to `t` and
leave `t` on the terminator. -/
def stpcpy (b : OutBuf) (s : List Char) : OutBuf :=
  ⟨b.done ++ s, NUL :: b.rest.drop (s.length + 1)⟩

/-- The whole memory of the buffer. -/
def mem (b : OutBuf) : List Char := b.done ++ b.rest

/-- The diagnostic the caller reads: the C string at the start of the buffer. -/
def text (b : OutBuf) : List Char := cstr b.mem

end OutBuf

/-! ## Hexadecimal text -/

/-- The table `hex[] = "0123456789abcdef"`, indexed by a value below 16. -/
def hexDigit (n : Nat) : Char := "0123456789abcdef".toList.getD n '0'

/-- Modelled from the spec: `pgpHexCvt` (an inline function of rpmpgp.h)
writes the lowercase hexadecimal text of a byte string, two characters
`hex[(b >> 4) & 0xf]`, `hex[b & 0xf]` for each byte. -/
def pgpHexCvt (s : List Nat) : List Char :=
  s.flatMap fun b => [hexDigit (b / 16 % 16), hexDigit (b % 16)]

/-- The function `nibble`: the value of a hexadecimal character, 0 for any
other character. -/
def nibble (c : Char) : Nat :=
  if '0' ≤ c ∧ c ≤ '9' then c.toNat - '0'.toNat
  else if 'A' ≤ c ∧ c ≤ 'F' then c.toNat - 'A'.toNat + 10
  else if 'a' ≤ c ∧ c ≤ 'f' then c.toNat - 'a'.toNat + 10
  else 0

/-- The conversion `%d` of `sprintf`. -/
def fmtD (i : Int) : List Char := (toString i).toList

/-- The function `rpmSigString`. -/
def rpmSigString : rpmVerifySignatureReturn → List Char
  | RPMSIG_OK => "OK".toList
  | RPMSIG_BAD => "BAD".toList
  | RPMSIG_NOKEY => "NOKEY".toList
  | RPMSIG_NOTTRUSTED => "NOTRUSTED".toList
  | RPMSIG_UNKNOWN => "UNKNOWN".toList

/-! ## Big numbers -/

/-- A beecrypt multi-precision number: its 32-bit words, most significant
first (`data[0]` is the head). -/
abbrev mp32number := List Nat

/-- Modelled from the spec: `mp32nsethex` (beecrypt's mp32number.c) parses a
hexadecimal string as a big integer.  The digits are shifted
into 32-bit words, a word being stored each time the number of characters
still to read is a multiple of eight, so that a string of `8 * k` digits gives
`k` words and the first word holds the first eight digits. -/
def mp32nsethexFrom : List Char → Nat → mp32number
  | [], _ => []
  | c :: cs, val =>
    if cs.length % 8 = 0 then ((val * 16 + nibble c) % 4294967296) :: mp32nsethexFrom cs 0
    else mp32nsethexFrom cs ((val * 16 + nibble c) % 4294967296)

/-- Modelled from the spec: `mp32nsethex(&n, hex)`, see `mp32nsethexFrom`. -/
def mp32nsethex (hex : List Char) : mp32number := mp32nsethexFrom hex 0

/-- An RSA public key `rsapk`: modulus and public exponent. -/
structure rsapk where
  n : mp32number
  e : mp32number
  deriving DecidableEq, Repr

/-! ## Signature tags, packet parameters, the Dig bag -/

/-- The signature tags `RPMSIGTAG_*` that lib/signature.c switches on; any
other value of the `int_32` tag is `other`. -/
inductive SigTag where
  | RPMSIGTAG_SIZE
  | RPMSIGTAG_LEMD5_1
  | RPMSIGTAG_PGP
  | RPMSIGTAG_LEMD5_2
  | RPMSIGTAG_MD5
  | RPMSIGTAG_GPG
  | RPMSIGTAG_PGP5
  | RPMSIGTAG_DSA
  | RPMSIGTAG_RSA
  | RPMSIGTAG_SHA1
  | other (n : Int)
  deriving DecidableEq, Repr

open SigTag

/-- OpenPGP public-key algorithm id of RSA (RFC 2440). -/
def PGPPUBKEYALGO_RSA : Nat := 1
/-- OpenPGP public-key algorithm id of DSA (RFC 2440). -/
def PGPPUBKEYALGO_DSA : Nat := 17
/-- OpenPGP hash algorithm id of MD5 (RFC 2440). -/
def PGPHASHALGO_MD5 : Nat := 1
/-- OpenPGP hash algorithm id of SHA-1 (RFC 2440). -/
def PGPHASHALGO_SHA1 : Nat := 2

/-- The fields of `pgpDigParams` that the verifiers read. -/
structure pgpDigParams where
  pubkey_algo : Nat
  hash_algo : Nat
  sigtype : Nat
  /-- hashed subpacket data, `none` for a null pointer -/
  hash : Option (List Nat)
  hashlen : Nat
  /-- the two bytes `signhash16[0]`, `signhash16[1]` -/
  signhash16 : Nat × Nat
  /-- the eight bytes of the key id -/
  signid : List Nat
  deriving DecidableEq, Repr

/-- The hash algorithms a digest context can be created for. -/
inductive DigestAlgo where
  | md5
  | sha1
  deriving DecidableEq, Repr

/-- Length in bytes of a digest. -/
def DigestAlgo.digestlen : DigestAlgo → Nat
  | .md5 => 16
  | .sha1 => 20

/-- A digest context object: its algorithm and the bytes fed to it so far. -/
structure DigestCtx where
  algo : DigestAlgo
  data : List Nat
  deriving DecidableEq, Repr

/-- The fields of the `pgpDig` bag that the verifiers use.  A `DIGEST_CTX` is
an address into `rpmts.heap`, `none` for a null pointer. -/
structure pgpDig where
  nbytes : Nat
  sha1ctx : Option Nat
  hdrsha1ctx : Option Nat
  sha1 : Option (List Char)
  sha1len : Nat
  md5ctx : Option Nat
  md5 : Option (List Char)
  md5len : Nat
  rsa_pk : rsapk
  c : mp32number
  rsahm : mp32number
  p : mp32number
  q : mp32number
  g : mp32number
  y : mp32number
  r : mp32number
  s : mp32number
  hm : mp32number
  deriving DecidableEq, Repr

/-- A call to one of the external collaborators, as recorded in `rpmts.calls`. -/
inductive ExtCall where
  | findPubkey
  | rsavrfy
  | dsavrfy
  deriving DecidableEq, Repr

/-- The state a verification works on: the fields of the transaction set that
`rpmtsSig`, `rpmtsSiglen`, `rpmtsSigtag`, `rpmtsDig` and `rpmtsSignature`
return, the heap of digest context objects, and the record of the calls made
to the keyring lookup and to the big-number primitives. -/
structure rpmts where
  sig : Option (List Nat)
  siglen : Int
  sigtag : SigTag
  dig : Option pgpDig
  sigp : Option pgpDigParams
  heap : List (Option DigestCtx)
  calls : List ExtCall
  deriving DecidableEq, Repr

/-- The public-key material that the keyring lookup stores in the Dig bag. -/
structure PubkeyFields where
  rsa_pk : rsapk
  p : mp32number
  q : mp32number
  g : mp32number
  y : mp32number
  deriving DecidableEq, Repr

/-- The external collaborators of the verification engine: the hash functions
behind the digest contexts (with their fixed output lengths), the keyring
lookup `rpmtsFindPubkey` and the primitives `rsavrfy` and `dsavrfy`. -/
structure Env where
  digest : DigestAlgo → List Nat → List Nat
  digest_length : ∀ a m, (digest a m).length = a.digestlen
  digest_byte : ∀ a m b, b ∈ digest a m → b < 256
  rpmtsFindPubkey : rpmts → rpmVerifySignatureReturn × PubkeyFields
  rsavrfy : rsapk → mp32number → mp32number → Bool
  dsavrfy : mp32number → mp32number → mp32number → mp32number → mp32number →
    mp32number → mp32number → Bool

/-! ## The digest contexts -/

/-- The context object at address `p`.  An address that holds no live object
is outside what the code may be given; it reads as an empty MD5 context. -/
def rpmts.ctxAt (ts : rpmts) (p : Nat) : DigestCtx :=
  ((ts.heap.getD p none).getD ⟨DigestAlgo.md5, []⟩)

/-- Modelled from the spec: `digest_dup(Ctx) → Ctx` allocates a new context
object with the state of the given one and returns its address. -/
def rpmDigestDup (ts : rpmts) (p : Nat) : Nat × rpmts :=
  (ts.heap.length, { ts with heap := ts.heap ++ [some (ts.ctxAt p)] })

/-- Modelled from the spec: `digest_update(Ctx, bytes)` feeds bytes to the
context object at `p`. -/
def rpmDigestUpdate (ts : rpmts) (p : Nat) (bytes : List Nat) : rpmts :=
  { ts with heap := ts.heap.set p (some { ts.ctxAt p with data := (ts.ctxAt p).data ++ bytes }) }

/-- Modelled from the spec: `digest_final(Ctx, hex?)` with the raw-bytes
choice: returns the digest of the bytes fed to the context at `p` and releases
the object. -/
def rpmDigestFinal (env : Env) (ts : rpmts) (p : Nat) : List Nat × rpmts :=
  (env.digest (ts.ctxAt p).algo (ts.ctxAt p).data, { ts with heap := ts.heap.set p none })

/-- Modelled from the spec: `digest_final(Ctx, hex?)` with the lowercase-hex
choice.  The length reported through `lenp` for hex text counts its
terminator; the verifiers store it in `md5len` / `sha1len` and never read it. -/
def rpmDigestFinalHex (env : Env) (ts : rpmts) (p : Nat) : List Char × rpmts :=
  (pgpHexCvt (rpmDigestFinal env ts p).1, (rpmDigestFinal env ts p).2)

/-! ## The size, MD5 and SHA1 verifiers -/

/-- The function `verifySizeSignature`.  The count `dig->nbytes` (a byte
count, declared with `pgpDig` outside lib/signature.c) is compared with the
declared size as a number, which is what the C comparison does on an LP64
target.  Both `sprintf` calls write at `t` and leave `t` where it is, so that
the `stpcpy` at `exit` writes over what they wrote. -/
def verifySizeSignature (ts : rpmts) (t : OutBuf) : rpmVerifySignatureReturn × OutBuf :=
  let t := (t.write []).stpcpy "Header+Payload size: ".toList
  match ts.sig, ts.dig with
  | some sig, some dig =>
    if dig.nbytes = 0 then
      (RPMSIG_NOKEY, (t.stpcpy (rpmSigString RPMSIG_NOKEY)).stpcpy "\n".toList)
    else if hostInt32 sig ≠ (dig.nbytes : Int) then
      (RPMSIG_BAD, ((t.stpcpy (rpmSigString RPMSIG_BAD)).write
        (" Expected(".toList ++ fmtD (hostInt32 sig) ++ ") != (".toList
          ++ fmtD (toInt32 dig.nbytes) ++ ")\n".toList)).stpcpy "\n".toList)
    else
      (RPMSIG_OK, ((t.stpcpy (rpmSigString RPMSIG_OK)).write
        (" (".toList ++ fmtD (toInt32 dig.nbytes) ++ ")".toList)).stpcpy "\n".toList)
  | _, _ => (RPMSIG_NOKEY, (t.stpcpy (rpmSigString RPMSIG_NOKEY)).stpcpy "\n".toList)

/-- The function `verifyMD5Signature`. -/
def verifyMD5Signature (env : Env) (ts : rpmts) (t : OutBuf) (md5ctx : Option Nat) :
    rpmVerifySignatureReturn × rpmts × OutBuf :=
  let t := (t.write []).stpcpy "MD5 digest: ".toList
  match md5ctx, ts.sig, ts.dig with
  | some ctx, some sig, some _ =>
    let dup := rpmDigestDup ts ctx
    let fin := rpmDigestFinal env dup.2 dup.1
    let md5sum := fin.1
    let md5len := md5sum.length
    if (md5len : Int) ≠ ts.siglen ∨ md5sum ≠ sig.take md5len then
      (RPMSIG_BAD, fin.2,
        (((((((t.stpcpy (rpmSigString RPMSIG_BAD)).stpcpy " Expected(".toList).write
          (pgpHexCvt (sig.take ts.siglen.toNat))).skip.stpcpy ") != (".toList).write
          (pgpHexCvt md5sum)).skip).stpcpy ")".toList).stpcpy "\n".toList)
    else
      (RPMSIG_OK, fin.2,
        (((((t.stpcpy (rpmSigString RPMSIG_OK)).stpcpy " (".toList).write
          (pgpHexCvt md5sum)).skip).stpcpy ")".toList).stpcpy "\n".toList)
  | _, _, _ =>
    (RPMSIG_NOKEY, ts, (t.stpcpy (rpmSigString RPMSIG_NOKEY)).stpcpy "\n".toList)

/-- The C string stored at `sig`: the characters before the first zero byte. -/
def sigString (sig : List Nat) : List Char :=
  (sig.takeWhile (fun b => b != 0)).map Char.ofNat

/-- The function `verifySHA1Signature`. -/
def verifySHA1Signature (env : Env) (ts : rpmts) (t : OutBuf) (sha1ctx : Option Nat) :
    rpmVerifySignatureReturn × rpmts × OutBuf :=
  let t := (t.write []).stpcpy "Header SHA1 digest: ".toList
  match sha1ctx, ts.sig, ts.dig with
  | some ctx, some sig, some _ =>
    let dup := rpmDigestDup ts ctx
    let fin := rpmDigestFinalHex env dup.2 dup.1
    let SHA1 : Option (List Char) := some fin.1
    match SHA1 with
    | none =>
      (RPMSIG_BAD, fin.2,
        (((((t.stpcpy (rpmSigString RPMSIG_BAD)).stpcpy " Expected(".toList).stpcpy
          (sigString sig)).stpcpy ") != (".toList).stpcpy ")".toList).stpcpy "\n".toList)
    | some sha1 =>
      if sha1.length ≠ (sigString sig).length ∨ sha1 ≠ sigString sig then
        (RPMSIG_BAD, fin.2,
          ((((((t.stpcpy (rpmSigString RPMSIG_BAD)).stpcpy " Expected(".toList).stpcpy
            (sigString sig)).stpcpy ") != (".toList).stpcpy sha1).stpcpy ")".toList).stpcpy
            "\n".toList)
      else
        (RPMSIG_OK, fin.2,
          ((((t.stpcpy (rpmSigString RPMSIG_OK)).stpcpy " (".toList).stpcpy sha1).stpcpy
            ")".toList).stpcpy "\n".toList)
  | _, _, _ =>
    (RPMSIG_NOKEY, ts, (t.stpcpy (rpmSigString RPMSIG_NOKEY)).stpcpy "\n".toList)

/-! ## The hashed-message buffer of the RSA verifier -/

/-- A buffer obtained from `xmalloc`: its cells, `none` for a cell that was
never written, and a flag raised by a write outside the buffer. -/
structure HexBuf where
  cells : List (Option Char)
  oob : Bool
  deriving DecidableEq, Repr

/-- Store one character at offset `i` from the start of the buffer. -/
def HexBuf.put (b : HexBuf) (i : Int) (c : Char) : HexBuf :=
  if 0 ≤ i ∧ i < (b.cells.length : Int) then { b with cells := b.cells.set i.toNat (some c) }
  else { b with oob := true }

/-- Store the characters of `s` at offsets `i`, `i + 1`, ... -/
def HexBuf.puts (b : HexBuf) (i : Int) : List Char → HexBuf
  | [] => b
  | c :: cs => (b.put i c).puts (i + 1) cs

/-- The C string at the start of the buffer (a cell never written ends it). -/
def HexBuf.str (b : HexBuf) : List Char :=
  cstr (b.cells.map fun c => c.getD NUL)

/-- The block of `verifyPGPSignature` that builds `hexstr` from the MD5 hex
string `dig->md5`: `xmalloc(2 * nb + 1)`, `memset(tt, 'f', 2 * nb)`, the four
leading characters, then, at `tt += 2 * nb - strlen(prefix) - strlen(md5) - 2`,
two zeros, the prefix and the MD5 text (each `stpcpy` also stores the
terminator). -/
def rsaHexstr (md5 : List Char) : HexBuf :=
  let pfx := "3020300c06082a864886f70d020505000410".toList
  let nbits : Nat := 1024
  let nb : Nat := (nbits + 7) / 8
  let b0 : HexBuf := ⟨List.replicate (2 * nb + 1) none, false⟩
  let b1 := b0.puts 0 (List.replicate (2 * nb) 'f')
  let b2 := (((b1.put 0 '0').put 1 '0').put 2 '0').put 3 '1'
  let tt : Int := (2 * nb : Nat) - (pfx.length : Int) - (md5.length : Int) - 2
  let b3 := (b2.put tt '0').put (tt + 1) '0'
  let b4 := b3.puts (tt + 2) (pfx ++ [NUL])
  b4.puts (tt + 2 + pfx.length) (md5 ++ [NUL])

/-! ## The public-key verifiers -/

/-- The code at the label `exit` of `verifyPGPSignature` and of
`verifyGPGSignature`: the status word, the key id when `sigp` is not null, and
the newline. -/
def keyIdExit (sigp : Option pgpDigParams) (res : rpmVerifySignatureReturn) (ts : rpmts)
    (t : OutBuf) : rpmVerifySignatureReturn × rpmts × OutBuf :=
  let t := t.stpcpy (rpmSigString res)
  let t := match sigp with
    | some sp => ((t.stpcpy ", key ID ".toList).write (pgpHexCvt ((sp.signid.drop 4).take 4))).skip
    | none => t
  (res, ts, t.stpcpy "\n".toList)

/-- The hashed subpacket bytes the verifiers feed to the duplicated context:
`sigp->hashlen` bytes at `sigp->hash`, nothing when `sigp->hash` is null. -/
def hashedData (sigp : pgpDigParams) : List Nat :=
  match sigp.hash with
  | some h => h.take sigp.hashlen
  | none => []

/-- The digest step shared by the two public-key verifiers: duplicate the
context, feed it the hashed subpacket data when the packet has some, and
finalize the duplicate to lowercase hex. -/
def dupUpdateFinalHex (env : Env) (ts : rpmts) (sigp : pgpDigParams) (ctx : Nat) :
    List Char × rpmts :=
  let dup := rpmDigestDup ts ctx
  let upd := match sigp.hash with
    | some h => rpmDigestUpdate dup.2 dup.1 (h.take sigp.hashlen)
    | none => dup.2
  rpmDigestFinalHex env upd dup.1

/-- The Dig bag after the keyring lookup has stored the key material. -/
def storeKeys (d : pgpDig) (k : PubkeyFields) : pgpDig :=
  { d with rsa_pk := k.rsa_pk, p := k.p, q := k.q, g := k.g, y := k.y }

/-- The two bytes `signhash16` that `verifyPGPSignature` reads off the hex
string `s = dig->md5`. -/
def pgpSignhash16 (s : List Char) : Nat × Nat :=
  (((nibble (s.getD 0 NUL) <<< 4) ||| nibble (s.getD 1 NUL)) % 256,
   ((nibble (s.getD 2 NUL) <<< 4) ||| nibble (s.getD 3 NUL)) % 256)

/-- The two bytes `signhash16` that `verifyGPGSignature` reads off the first
word of `dig->hm`. -/
def gpgSignhash16 (hm : mp32number) : Nat × Nat :=
  ((hm.getD 0 0 >>> 24) &&& 255, (hm.getD 0 0 >>> 16) &&& 255)

/-- The state of `verifyPGPSignature` when it calls the keyring lookup: the
duplicate has been finalized into `dig->md5` and `dig->rsahm` has been set. -/
def pgpLookupState (env : Env) (ts : rpmts) (dig : pgpDig) (sigp : pgpDigParams) (ctx : Nat) :
    rpmts :=
  { (dupUpdateFinalHex env ts sigp ctx).2 with
    dig := some { dig with
      md5 := some (dupUpdateFinalHex env ts sigp ctx).1
      md5len := (dupUpdateFinalHex env ts sigp ctx).1.length + 1
      rsahm := mp32nsethex (rsaHexstr (dupUpdateFinalHex env ts sigp ctx).1).str } }

/-- The Dig bag of `verifyPGPSignature` after the keyring lookup. -/
def pgpKeyedDig (env : Env) (ts : rpmts) (dig : pgpDig) (sigp : pgpDigParams) (ctx : Nat) :
    pgpDig :=
  storeKeys
    { dig with
      md5 := some (dupUpdateFinalHex env ts sigp ctx).1
      md5len := (dupUpdateFinalHex env ts sigp ctx).1.length + 1
      rsahm := mp32nsethex (rsaHexstr (dupUpdateFinalHex env ts sigp ctx).1).str }
    (env.rpmtsFindPubkey (pgpLookupState env ts dig sigp ctx)).2

/-- The function `verifyPGPSignature`. -/
def verifyPGPSignature (env : Env) (ts : rpmts) (t : OutBuf) (md5ctx : Option Nat) :
    rpmVerifySignatureReturn × rpmts × OutBuf :=
  let t := (t.write []).stpcpy "V3 RSA/MD5 signature: ".toList
  match md5ctx, ts.sig, ts.dig, ts.sigp with
  | some ctx, some _, some dig, some sigp =>
    if ¬ (ts.sigtag = RPMSIGTAG_PGP ∧ sigp.pubkey_algo = PGPPUBKEYALGO_RSA
        ∧ sigp.hash_algo = PGPHASHALGO_MD5) then
      keyIdExit ts.sigp RPMSIG_NOKEY ts t
    else
      let fin := dupUpdateFinalHex env ts sigp ctx
      if pgpSignhash16 fin.1 ≠ sigp.signhash16 then
        keyIdExit ts.sigp RPMSIG_BAD
          { fin.2 with dig := some { dig with md5 := some fin.1, md5len := fin.1.length + 1 } } t
      else
        let ts2 := pgpLookupState env ts dig sigp ctx
        let d := pgpKeyedDig env ts dig sigp ctx
        let ts3 : rpmts := { ts2 with dig := some d, calls := ts2.calls ++ [ExtCall.findPubkey] }
        if (env.rpmtsFindPubkey ts2).1 ≠ RPMSIG_OK then
          keyIdExit ts.sigp (env.rpmtsFindPubkey ts2).1 ts3 t
        else if env.rsavrfy d.rsa_pk d.rsahm d.c then
          keyIdExit ts.sigp RPMSIG_OK { ts3 with calls := ts3.calls ++ [ExtCall.rsavrfy] } t
        else
          keyIdExit ts.sigp RPMSIG_BAD { ts3 with calls := ts3.calls ++ [ExtCall.rsavrfy] } t
  | _, _, _, _ => keyIdExit ts.sigp RPMSIG_NOKEY ts t

/-- The state of `verifyGPGSignature` when it calls the keyring lookup: the
duplicate has been finalized into `dig->sha1` and parsed into `dig->hm`. -/
def gpgLookupState (env : Env) (ts : rpmts) (dig : pgpDig) (sigp : pgpDigParams) (ctx : Nat) :
    rpmts :=
  { (dupUpdateFinalHex env ts sigp ctx).2 with
    dig := some { dig with
      sha1 := some (dupUpdateFinalHex env ts sigp ctx).1
      sha1len := (dupUpdateFinalHex env ts sigp ctx).1.length + 1
      hm := mp32nsethex (dupUpdateFinalHex env ts sigp ctx).1 } }

/-- The Dig bag of `verifyGPGSignature` after the keyring lookup. -/
def gpgKeyedDig (env : Env) (ts : rpmts) (dig : pgpDig) (sigp : pgpDigParams) (ctx : Nat) :
    pgpDig :=
  storeKeys
    { dig with
      sha1 := some (dupUpdateFinalHex env ts sigp ctx).1
      sha1len := (dupUpdateFinalHex env ts sigp ctx).1.length + 1
      hm := mp32nsethex (dupUpdateFinalHex env ts sigp ctx).1 }
    (env.rpmtsFindPubkey (gpgLookupState env ts dig sigp ctx)).2

/-- The function `verifyGPGSignature`. -/
def verifyGPGSignature (env : Env) (ts : rpmts) (t : OutBuf) (sha1ctx : Option Nat) :
    rpmVerifySignatureReturn × rpmts × OutBuf :=
  let t := t.write []
  let t := match ts.dig with
    | some dig => if dig.hdrsha1ctx = sha1ctx then t.stpcpy "Header ".toList else t
    | none => t
  let t := t.stpcpy "V3 DSA signature: ".toList
  match sha1ctx, ts.sig, ts.dig, ts.sigp with
  | some ctx, some _, some dig, some sigp =>
    if ¬ ((ts.sigtag = RPMSIGTAG_GPG ∨ ts.sigtag = RPMSIGTAG_DSA)
        ∧ sigp.pubkey_algo = PGPPUBKEYALGO_DSA ∧ sigp.hash_algo = PGPHASHALGO_SHA1) then
      keyIdExit ts.sigp RPMSIG_NOKEY ts t
    else
      let ts2 := gpgLookupState env ts dig sigp ctx
      if gpgSignhash16 (mp32nsethex (dupUpdateFinalHex env ts sigp ctx).1) ≠ sigp.signhash16 then
        keyIdExit ts.sigp RPMSIG_BAD ts2 t
      else
        let d := gpgKeyedDig env ts dig sigp ctx
        let ts3 : rpmts := { ts2 with dig := some d, calls := ts2.calls ++ [ExtCall.findPubkey] }
        if (env.rpmtsFindPubkey ts2).1 ≠ RPMSIG_OK then
          keyIdExit ts.sigp (env.rpmtsFindPubkey ts2).1 ts3 t
        else if env.dsavrfy d.p d.q d.g d.hm d.y d.r d.s then
          keyIdExit ts.sigp RPMSIG_OK { ts3 with calls := ts3.calls ++ [ExtCall.dsavrfy] } t
        else
          keyIdExit ts.sigp RPMSIG_BAD { ts3 with calls := ts3.calls ++ [ExtCall.dsavrfy] } t
  | _, _, _, _ => keyIdExit ts.sigp RPMSIG_NOKEY ts t

/-! ## The dispatcher -/

/-- The function `rpmVerifySignature`: the verdict, the state after the call
and the buffer `result` the diagnostic was written to. -/
def rpmVerifySignature (env : Env) (ts : rpmts) (result : List Char) :
    rpmVerifySignatureReturn × rpmts × OutBuf :=
  match ts.sig, ts.dig with
  | some _, some dig =>
    if ts.siglen ≤ 0 then
      (RPMSIG_UNKNOWN, ts, (OutBuf.start result).write "Verify signature: BAD PARAMETERS\n".toList)
    else
      match ts.sigtag with
      | RPMSIGTAG_SIZE =>
        ((verifySizeSignature ts (OutBuf.start result)).1, ts,
          (verifySizeSignature ts (OutBuf.start result)).2)
      | RPMSIGTAG_MD5 => verifyMD5Signature env ts (OutBuf.start result) dig.md5ctx
      | RPMSIGTAG_SHA1 => verifySHA1Signature env ts (OutBuf.start result) dig.hdrsha1ctx
      | RPMSIGTAG_RSA => verifyPGPSignature env ts (OutBuf.start result) dig.md5ctx
      | RPMSIGTAG_PGP5 => verifyPGPSignature env ts (OutBuf.start result) dig.md5ctx
      | RPMSIGTAG_PGP => verifyPGPSignature env ts (OutBuf.start result) dig.md5ctx
      | RPMSIGTAG_DSA => verifyGPGSignature env ts (OutBuf.start result) dig.hdrsha1ctx
      | RPMSIGTAG_GPG => verifyGPGSignature env ts (OutBuf.start result) dig.sha1ctx
      | RPMSIGTAG_LEMD5_1 =>
        (RPMSIG_UNKNOWN, ts, (OutBuf.start result).write "Broken MD5 digest: UNSUPPORTED\n".toList)
      | RPMSIGTAG_LEMD5_2 =>
        (RPMSIG_UNKNOWN, ts, (OutBuf.start result).write "Broken MD5 digest: UNSUPPORTED\n".toList)
      | other n =>
        (RPMSIG_UNKNOWN, ts, (OutBuf.start result).write
          ("Signature: UNKNOWN (".toList ++ fmtD n ++ ")\n".toList))
  | _, _ =>
    (RPMSIG_UNKNOWN, ts, (OutBuf.start result).write "Verify signature: BAD PARAMETERS\n".toList)

/-! ## Notions used to state the properties -/

/-- The digest that a public-key verifier finalizes when it is handed the
context at `ctx`: the hash of the bytes that context has been fed, followed by
the hashed subpacket data of the packet. -/
def finalDigest (env : Env) (ts : rpmts) (sigp : pgpDigParams) (ctx : Nat) : List Nat :=
  env.digest (ts.ctxAt ctx).algo ((ts.ctxAt ctx).data ++ hashedData sigp)

/-- The digest that the MD5 and SHA1 verifiers finalize when they are handed
the context at `ctx`: the hash of the bytes that context has been fed. -/
def plainDigest (env : Env) (ts : rpmts) (ctx : Nat) : List Nat :=
  env.digest (ts.ctxAt ctx).algo (ts.ctxAt ctx).data

/-- The leading two bytes of a digest. -/
def leading16 (d : List Nat) : Nat × Nat := (d.getD 0 0, d.getD 1 0)

/-! ## Concrete collaborators and states -/

/-- A stand-in hash function: every byte of the digest is the sum of the
message bytes modulo 256. -/
def toyDigest (a : DigestAlgo) (m : List Nat) : List Nat :=
  List.replicate a.digestlen (m.sum % 256)

/-- Key material returned by the stand-in lookup. -/
def toyKeys : PubkeyFields := ⟨⟨[1], [1]⟩, [1], [1], [1], [1]⟩

/-- Collaborators whose keyring lookup answers `look` and whose primitives
answer `vrfy`. -/
def toyEnv (look : rpmVerifySignatureReturn) (vrfy : Bool) : Env where
  digest := toyDigest
  digest_length := by intro a m; simp [toyDigest]
  digest_byte := by
    intro a m b h
    have hb := (List.mem_replicate.mp h).2
    omega
  rpmtsFindPubkey := fun _ => (look, toyKeys)
  rsavrfy := fun _ _ _ => vrfy
  dsavrfy := fun _ _ _ _ _ _ _ => vrfy

/-- A Dig bag with 117 bytes streamed, `md5ctx` at address 0, `sha1ctx` at
address 1 and `hdrsha1ctx` at address 2. -/
def toyDig (nbytes : Nat) : pgpDig :=
  { nbytes := nbytes, sha1ctx := some 1, hdrsha1ctx := some 2, sha1 := none, sha1len := 0,
    md5ctx := some 0, md5 := none, md5len := 0, rsa_pk := ⟨[], []⟩, c := [], rsahm := [],
    p := [], q := [], g := [], y := [], r := [], s := [], hm := [] }

/-- Packet parameters with the given algorithm ids and `signhash16`. -/
def toyParams (pubkey hash : Nat) (sh : Nat × Nat) : pgpDigParams :=
  { pubkey_algo := pubkey, hash_algo := hash, sigtype := 3, hash := none, hashlen := 0,
    signhash16 := sh, signid := [1, 2, 3, 4, 5, 6, 7, 8] }

/-- A verification state: an MD5 context fed the bytes 1, 2 (toy digest
`03 03 ...`), a whole-payload SHA-1 context fed 3 (`03 03 ...`) and a
header-only SHA-1 context fed 4, 5 (`09 09 ...`). -/
def toyTs (tag : SigTag) (sig : List Nat) (siglen : Int) (nbytes : Nat)
    (sigp : pgpDigParams) : rpmts :=
  { sig := some sig, siglen := siglen, sigtag := tag, dig := some (toyDig nbytes),
    sigp := some sigp,
    heap := [some ⟨DigestAlgo.md5, [1, 2]⟩, some ⟨DigestAlgo.sha1, [3]⟩,
      some ⟨DigestAlgo.sha1, [4, 5]⟩],
    calls := [] }

/-! ## Signature headers, the header codec and package files -/

/-- The entry types that lib/signature.c stores in a signature header. -/
inductive rpmTagType where
  | RPM_INT32_TYPE
  | RPM_STRING_TYPE
  | RPM_BIN_TYPE
  deriving DecidableEq, Repr

/-- One entry of a header: tag, type, payload bytes and count. -/
structure HeaderEntry where
  tag : SigTag
  type : rpmTagType
  data : List Nat
  count : Int
  deriving DecidableEq, Repr

/-- A header in memory: its entries, in the order they were added. -/
abbrev Header := List HeaderEntry

/-- The array `header_magic`. -/
def header_magic : List Nat := [0x8e, 0xad, 0xe8, 0x01, 0x00, 0x00, 0x00, 0x00]

/-- The generic header serializer, an external collaborator of
lib/signature.c: the bytes that `headerWrite(fd, h, HEADER_MAGIC_YES)` emits,
what `headerRead(fd, HEADER_MAGIC_YES)` makes of the bytes at the file position
(the header, null on failure, and the number of bytes it consumed),
`headerSizeof(h, HEADER_MAGIC_YES)`, and whether `headerAddEntry` accepts an
entry. -/
structure Codec where
  headerImage : Header → List Nat
  headerRead : List Nat → Option Header × Nat
  headerSizeof : Header → Int
  headerAddOk : Header → HeaderEntry → Bool

/-- Modelled from the spec: `headerAddEntry(h, tag, type, p, c)` adds an entry
to the tag-indexed mapping and returns 1, or returns 0 and leaves the header
as it was. -/
def headerAddEntry (addOk : Header → HeaderEntry → Bool) (h : Header) (e : HeaderEntry) :
    Bool × Header :=
  if addOk h e then (true, h ++ [e]) else (false, h)

/-- Modelled from the spec: `headerGetEntry(h, tag, ...)` finds the entry of
the header with the given tag, if there is one. -/
def headerGetEntry (h : Header) (tag : SigTag) : Option HeaderEntry :=
  h.find? fun e => decide (e.tag = tag)

/-- The signature types that `rpmReadSignature` switches on; any other value
is `other`. -/
inductive sigType where
  | RPMSIGTYPE_NONE
  | RPMSIGTYPE_PGP262_1024
  | RPMSIGTYPE_MD5
  | RPMSIGTYPE_MD5_PGP
  | RPMSIGTYPE_HEADERSIG
  | RPMSIGTYPE_DISABLE
  | other (n : Int)
  deriving DecidableEq, Repr

open sigType rpmTagType

/-- The error codes passed to `rpmError` by `rpmReadSignature`. -/
inductive rpmErrCode where
  | RPMERR_BADSIGTYPE
  deriving DecidableEq, Repr

/-- A package file open for reading: its bytes, the file position, and what
`fstat` reports about it (`none` when `fstat` fails). -/
structure FD where
  data : List Nat
  pos : Nat
  st : Option Stat
  deriving DecidableEq, Repr

/-- The call `timedRead(fd, buf, n)`: the bytes read, at most `n` and fewer
when the file ends, and the file with its position moved past them. -/
def timedRead (fd : FD) (n : Nat) : List Nat × FD :=
  ((fd.data.drop fd.pos).take n,
    { fd with pos := fd.pos + ((fd.data.drop fd.pos).take n).length })

/-- The padding `(8 - (sigSize % 8)) % 8` of `rpmReadSignature` and
`rpmWriteSignature`; `%` is the C remainder of `int`. -/
def sigPad (sigSize : Int) : Int := (8 - sigSize.tmod 8).tmod 8

/-- The end of `rpmReadSignature`: the header is stored through `headerp` only
when `rc` is RPMRC_OK (`headerLink` of a null header is null); otherwise
`*headerp` keeps the null it was given on entry. -/
def readFinish (rc : rpmRC) (h : Option Header) (fd : FD) (errs : List rpmErrCode) :
    rpmRC × Option Header × FD × List rpmErrCode :=
  (rc, if rc = RPMRC_OK then h else none, fd, errs)

/-- The statement `if (pad && timedRead(fd, buf, pad) != pad) rc = RPMRC_SHORTREAD`
of `rpmReadSignature`, followed by the end of the function. -/
def readPad (rc : rpmRC) (h : Header) (fd : FD) (pad : Int) :
    rpmRC × Option Header × FD × List rpmErrCode :=
  if pad ≠ 0 then
    if (((timedRead fd pad.toNat).1.length : Nat) : Int) ≠ pad then
      readFinish RPMRC_SHORTREAD (some h) (timedRead fd pad.toNat).2 []
    else readFinish rc (some h) (timedRead fd pad.toNat).2 []
  else readFinish rc (some h) fd []

/-- The function `rpmReadSignature`: the return code, the header stored
through `headerp`, the file after the call and the errors reported through
`rpmError`.  `sizeofLead` is `sizeof(struct rpmlead)`. -/
def rpmReadSignature (cdc : Codec) (sizeofLead : Nat) (fd : FD) (sig_type : sigType) :
    rpmRC × Option Header × FD × List rpmErrCode :=
  match sig_type with
  | RPMSIGTYPE_NONE => readFinish RPMRC_OK none fd []
  | RPMSIGTYPE_PGP262_1024 =>
    if (timedRead fd 256).1.length ≠ 256 then readFinish RPMRC_FAIL none (timedRead fd 256).2 []
    else
      readFinish RPMRC_OK
        (some (headerAddEntry cdc.headerAddOk []
          ⟨RPMSIGTAG_PGP, RPM_BIN_TYPE, (timedRead fd 256).1.take 152, 152⟩).2)
        (timedRead fd 256).2 []
  | RPMSIGTYPE_MD5 => readFinish RPMRC_FAIL none fd [rpmErrCode.RPMERR_BADSIGTYPE]
  | RPMSIGTYPE_MD5_PGP => readFinish RPMRC_FAIL none fd [rpmErrCode.RPMERR_BADSIGTYPE]
  | RPMSIGTYPE_HEADERSIG =>
    match (cdc.headerRead (fd.data.drop fd.pos)).1 with
    | none =>
      readFinish RPMRC_FAIL none { fd with pos := fd.pos + (cdc.headerRead (fd.data.drop fd.pos)).2 } []
    | some h =>
      match headerGetEntry h RPMSIGTAG_SIZE with
      | none =>
        readFinish RPMRC_OK (some h)
          { fd with pos := fd.pos + (cdc.headerRead (fd.data.drop fd.pos)).2 } []
      | some archSize =>
        readPad
          (checkSize sizeofLead fd.st (cdc.headerSizeof h) (sigPad (cdc.headerSizeof h))
            (hostInt32 archSize.data))
          h { fd with pos := fd.pos + (cdc.headerRead (fd.data.drop fd.pos)).2 }
          (sigPad (cdc.headerSizeof h))
  | RPMSIGTYPE_DISABLE =>
    match (cdc.headerRead (fd.data.drop fd.pos)).1 with
    | none =>
      readFinish RPMRC_FAIL none { fd with pos := fd.pos + (cdc.headerRead (fd.data.drop fd.pos)).2 } []
    | some h =>
      readPad RPMRC_OK h { fd with pos := fd.pos + (cdc.headerRead (fd.data.drop fd.pos)).2 }
        (sigPad (cdc.headerSizeof h))
  | sigType.other _ => readFinish RPMRC_FAIL none fd []

/-- A file open for writing: the bytes written so far and the number of bytes
that can still be written before a write comes up short. -/
structure OutFD where
  out : List Nat
  room : Nat
  deriving DecidableEq, Repr

/-- The call `Fwrite(buf, 1, n, fd)` for the bytes `bytes`: the number of bytes
written and the file after the call. -/
def Fwrite (fd : OutFD) (bytes : List Nat) : Nat × OutFD :=
  ((bytes.take fd.room).length,
    { out := fd.out ++ bytes.take fd.room, room := fd.room - (bytes.take fd.room).length })

/-- Modelled from the spec: `header_write(fd, h, magic_yes)` writes the
serialized header and returns 0, or a nonzero code when the write came up
short. -/
def headerWrite (cdc : Codec) (fd : OutFD) (h : Header) : Int × OutFD :=
  (if (Fwrite fd (cdc.headerImage h)).1 = (cdc.headerImage h).length then 0 else 1,
    (Fwrite fd (cdc.headerImage h)).2)

/-- The function `rpmWriteSignature`: the return code and the file after the
call.  The pad bytes come from the static buffer `buf` of eight zero bytes. -/
def rpmWriteSignature (cdc : Codec) (fd : OutFD) (h : Header) : Int × OutFD :=
  if (headerWrite cdc fd h).1 ≠ 0 then headerWrite cdc fd h
  else if sigPad (cdc.headerSizeof h) ≠ 0 then
    if (((Fwrite (headerWrite cdc fd h).2
          ((List.replicate 8 0).take (sigPad (cdc.headerSizeof h)).toNat)).1 : Nat) : Int)
        ≠ sigPad (cdc.headerSizeof h) then
      (1, (Fwrite (headerWrite cdc fd h).2
        ((List.replicate 8 0).take (sigPad (cdc.headerSizeof h)).toNat)).2)
    else
      ((headerWrite cdc fd h).1, (Fwrite (headerWrite cdc fd h).2
        ((List.replicate 8 0).take (sigPad (cdc.headerSizeof h)).toNat)).2)
  else headerWrite cdc fd h

/-! ## The signature add pipeline -/

/-- The external collaborators of `rpmAddSignature` and `makeHDRSignature`.
Files are named by their path, a pass phrase may be null.

* `statSize file`: the `st_size` that `stat` reports, `none` when it fails;
* `domd5 file`: the sixteen digest bytes, `none` when `domd5` fails;
* `makePGPSignature` / `makeGPGSignature`: the external signer driver run on a
  file, the packet and its length on success (return 0), `none` on failure;
* `readHeader file`: `Fopen` and `headerRead` of the package header, `none`
  when either fails;
* `immutable h`: the immutable region `uh` of that header, `none` when the
  header has no such entry or it cannot be fetched;
* `makeTempFile`: the name of a fresh temporary file, `none` on failure;
* `writeTemp fn h`: whether `headerWrite` of the header to that file succeeds;
* `sha1`: the SHA-1 hash function;
* `headerAddOk`: whether `headerAddEntry` accepts an entry. -/
structure SignEnv where
  statSize : List Char → Option Int
  domd5 : List Char → Option (List Nat)
  makePGPSignature : List Char → Option (List Char) → Option (List Nat × Int)
  makeGPGSignature : List Char → Option (List Char) → Option (List Nat × Int)
  readHeader : List Char → Option (List Nat)
  immutable : List Nat → Option (List Nat)
  makeTempFile : Option (List Char)
  writeTemp : List Char → List Nat → Bool
  sha1 : List Nat → List Nat
  headerAddOk : Header → HeaderEntry → Bool

/-- The common tail of the DSA and RSA cases of `makeHDRSignature`, once the
package header has been read: make a temporary file, write the header to it,
run the signer on it and add the packet under `sigTag`. -/
def signHeaderOnly (env : SignEnv) (sig : Header) (h : List Nat) (sigTag : SigTag)
    (signer : List Char → Option (List Char) → Option (List Nat × Int))
    (passPhrase : Option (List Char)) : Int × Header :=
  match env.makeTempFile with
  | none => (-1, sig)
  | some fn =>
    if env.writeTemp fn h = false then (-1, sig)
    else
      match signer fn passPhrase with
      | none => (-1, sig)
      | some pkt =>
        if (headerAddEntry env.headerAddOk sig ⟨sigTag, RPM_BIN_TYPE, pkt.1, pkt.2⟩).1 = false then
          (-1, (headerAddEntry env.headerAddOk sig ⟨sigTag, RPM_BIN_TYPE, pkt.1, pkt.2⟩).2)
        else (0, (headerAddEntry env.headerAddOk sig ⟨sigTag, RPM_BIN_TYPE, pkt.1, pkt.2⟩).2)

/-- The function `makeHDRSignature`: the return code (0 on success, -1 on
failure) and the signature header after the call.  Closing and unlinking the
files leaves both unchanged. -/
def makeHDRSignature (env : SignEnv) (sig : Header) (file : List Char) (sigTag : SigTag)
    (passPhrase : Option (List Char)) : Int × Header :=
  match sigTag with
  | RPMSIGTAG_SIZE => (-1, sig)
  | RPMSIGTAG_MD5 => (-1, sig)
  | RPMSIGTAG_PGP5 => (-1, sig)
  | RPMSIGTAG_PGP => (-1, sig)
  | RPMSIGTAG_GPG => (-1, sig)
  | RPMSIGTAG_SHA1 =>
    match env.readHeader file with
    | none => (-1, sig)
    | some h =>
      match env.immutable h with
      | none => (-1, sig)
      | some uh =>
        if (headerAddEntry env.headerAddOk sig
            ⟨RPMSIGTAG_SHA1, RPM_STRING_TYPE,
              (pgpHexCvt (env.sha1 (header_magic ++ uh))).map Char.toNat, 1⟩).1 = false then
          (-1, (headerAddEntry env.headerAddOk sig
            ⟨RPMSIGTAG_SHA1, RPM_STRING_TYPE,
              (pgpHexCvt (env.sha1 (header_magic ++ uh))).map Char.toNat, 1⟩).2)
        else
          (0, (headerAddEntry env.headerAddOk sig
            ⟨RPMSIGTAG_SHA1, RPM_STRING_TYPE,
              (pgpHexCvt (env.sha1 (header_magic ++ uh))).map Char.toNat, 1⟩).2)
  | RPMSIGTAG_DSA =>
    match env.readHeader file with
    | none => (-1, sig)
    | some h => signHeaderOnly env sig h RPMSIGTAG_DSA env.makeGPGSignature passPhrase
  | RPMSIGTAG_RSA =>
    match env.readHeader file with
    | none => (-1, sig)
    | some h => signHeaderOnly env sig h RPMSIGTAG_RSA env.makePGPSignature passPhrase
  | RPMSIGTAG_LEMD5_1 => (-1, sig)
  | RPMSIGTAG_LEMD5_2 => (-1, sig)
  | SigTag.other _ => (-1, sig)

/-- The function `rpmAddSignature`: the return code (0 on success, -1 on
failure) and the signature header after the call. -/
def rpmAddSignature (env : SignEnv) (sig : Header) (file : List Char) (sigTag : SigTag)
    (passPhrase : Option (List Char)) : Int × Header :=
  match sigTag with
  | RPMSIGTAG_SIZE =>
    match env.statSize file with
    | none => (-1, sig)
    | some size =>
      if (headerAddEntry env.headerAddOk sig
          ⟨RPMSIGTAG_SIZE, RPM_INT32_TYPE, int32Bytes (toInt32 size), 1⟩).1 = false then
        (-1, (headerAddEntry env.headerAddOk sig
          ⟨RPMSIGTAG_SIZE, RPM_INT32_TYPE, int32Bytes (toInt32 size), 1⟩).2)
      else
        (0, (headerAddEntry env.headerAddOk sig
          ⟨RPMSIGTAG_SIZE, RPM_INT32_TYPE, int32Bytes (toInt32 size), 1⟩).2)
  | RPMSIGTAG_MD5 =>
    match env.domd5 file with
    | none => (-1, sig)
    | some pkt =>
      if (headerAddEntry env.headerAddOk sig ⟨RPMSIGTAG_MD5, RPM_BIN_TYPE, pkt, 16⟩).1 = false then
        (-1, (headerAddEntry env.headerAddOk sig ⟨RPMSIGTAG_MD5, RPM_BIN_TYPE, pkt, 16⟩).2)
      else (0, (headerAddEntry env.headerAddOk sig ⟨RPMSIGTAG_MD5, RPM_BIN_TYPE, pkt, 16⟩).2)
  | RPMSIGTAG_PGP5 =>
    match env.makePGPSignature file passPhrase with
    | none => (-1, sig)
    | some pkt =>
      if (headerAddEntry env.headerAddOk sig
          ⟨RPMSIGTAG_PGP5, RPM_BIN_TYPE, pkt.1, pkt.2⟩).1 = false then
        (-1, (headerAddEntry env.headerAddOk sig ⟨RPMSIGTAG_PGP5, RPM_BIN_TYPE, pkt.1, pkt.2⟩).2)
      else (0, (headerAddEntry env.headerAddOk sig ⟨RPMSIGTAG_PGP5, RPM_BIN_TYPE, pkt.1, pkt.2⟩).2)
  | RPMSIGTAG_PGP =>
    match env.makePGPSignature file passPhrase with
    | none => (-1, sig)
    | some pkt =>
      if (headerAddEntry env.headerAddOk sig
          ⟨RPMSIGTAG_PGP, RPM_BIN_TYPE, pkt.1, pkt.2⟩).1 = false then
        (-1, (headerAddEntry env.headerAddOk sig ⟨RPMSIGTAG_PGP, RPM_BIN_TYPE, pkt.1, pkt.2⟩).2)
      else (0, (headerAddEntry env.headerAddOk sig ⟨RPMSIGTAG_PGP, RPM_BIN_TYPE, pkt.1, pkt.2⟩).2)
  | RPMSIGTAG_GPG =>
    match env.makeGPGSignature file passPhrase with
    | none => (-1, sig)
    | some pkt =>
      if (headerAddEntry env.headerAddOk sig
          ⟨RPMSIGTAG_GPG, RPM_BIN_TYPE, pkt.1, pkt.2⟩).1 = false then
        (-1, (headerAddEntry env.headerAddOk sig ⟨RPMSIGTAG_GPG, RPM_BIN_TYPE, pkt.1, pkt.2⟩).2)
      else
        makeHDRSignature env
          (headerAddEntry env.headerAddOk sig ⟨RPMSIGTAG_GPG, RPM_BIN_TYPE, pkt.1, pkt.2⟩).2
          file RPMSIGTAG_DSA passPhrase
  | RPMSIGTAG_RSA => makeHDRSignature env sig file RPMSIGTAG_RSA passPhrase
  | RPMSIGTAG_DSA => makeHDRSignature env sig file RPMSIGTAG_DSA passPhrase
  | RPMSIGTAG_SHA1 => makeHDRSignature env sig file RPMSIGTAG_SHA1 passPhrase
  | RPMSIGTAG_LEMD5_1 => (-1, sig)
  | RPMSIGTAG_LEMD5_2 => (-1, sig)
  | SigTag.other _ => (-1, sig)

/-! ## A concrete codec and signer -/

/-- The code of a recognized tag in the stand-in serialization. -/
def toyTagCode : SigTag → Nat
  | RPMSIGTAG_SIZE => 0
  | RPMSIGTAG_LEMD5_1 => 1
  | RPMSIGTAG_PGP => 2
  | RPMSIGTAG_LEMD5_2 => 3
  | RPMSIGTAG_MD5 => 4
  | RPMSIGTAG_GPG => 5
  | RPMSIGTAG_PGP5 => 6
  | RPMSIGTAG_DSA => 7
  | RPMSIGTAG_RSA => 8
  | RPMSIGTAG_SHA1 => 9
  | SigTag.other _ => 10

/-- The tag of a code of the stand-in serialization. -/
def toyTagOf : Nat → SigTag
  | 0 => RPMSIGTAG_SIZE
  | 1 => RPMSIGTAG_LEMD5_1
  | 2 => RPMSIGTAG_PGP
  | 3 => RPMSIGTAG_LEMD5_2
  | 4 => RPMSIGTAG_MD5
  | 5 => RPMSIGTAG_GPG
  | 6 => RPMSIGTAG_PGP5
  | 7 => RPMSIGTAG_DSA
  | 8 => RPMSIGTAG_RSA
  | 9 => RPMSIGTAG_SHA1
  | _ => SigTag.other 0

/-- The code of an entry type in the stand-in serialization. -/
def toyTypeCode : rpmTagType → Nat
  | RPM_INT32_TYPE => 0
  | RPM_STRING_TYPE => 1
  | RPM_BIN_TYPE => 2

/-- The entry type of a code of the stand-in serialization. -/
def toyTypeOf : Nat → rpmTagType
  | 0 => RPM_INT32_TYPE
  | 1 => RPM_STRING_TYPE
  | _ => RPM_BIN_TYPE

/-- The stand-in serialization of a header: the magic, the number of entries,
then for each entry its tag, type, count, payload length and payload. -/
def toyImage (h : Header) : List Nat :=
  header_magic ++ [h.length]
    ++ h.flatMap fun e => [toyTagCode e.tag, toyTypeCode e.type, e.count.toNat, e.data.length] ++ e.data

/-- Reading back `n` entries of the stand-in serialization: the entries and
the number of bytes they took. -/
def toyDecode : Nat → List Nat → Option (Header × Nat)
  | 0, _ => some ([], 0)
  | n + 1, t :: ty :: c :: l :: rest =>
    if rest.length < l then none
    else
      match toyDecode n (rest.drop l) with
      | some r => some (⟨toyTagOf t, toyTypeOf ty, rest.take l, (c : Int)⟩ :: r.1, 4 + l + r.2)
      | none => none
  | _ + 1, _ => none

/-- Reading a header in the stand-in serialization. -/
def toyHeaderRead (bytes : List Nat) : Option Header × Nat :=
  if bytes.take 8 = header_magic then
    match bytes.drop 8 with
    | n :: rest =>
      match toyDecode n rest with
      | some r => (some r.1, 9 + r.2)
      | none => (none, 8)
    | [] => (none, 8)
  else (none, 0)

/-- A stand-in codec; `headerAddEntry` accepts an entry with a positive count. -/
def toyCodec : Codec where
  headerImage := toyImage
  headerRead := toyHeaderRead
  headerSizeof := fun h => ((toyImage h).length : Int)
  headerAddOk := fun _ e => decide (0 < e.count)

/-- A signature header with a SIZE entry (declared size 24) and an MD5
entry; the stand-in serialization takes 37 bytes, so the pad is 3. -/
def toyHeader : Header :=
  [⟨RPMSIGTAG_SIZE, RPM_INT32_TYPE, int32Bytes 24, 1⟩,
   ⟨RPMSIGTAG_MD5, RPM_BIN_TYPE, List.replicate 16 3, 16⟩]

/-- A signature header without a SIZE entry: a SHA1 entry only; the stand-in
serialization takes 18 bytes, so the pad is 6. -/
def toyHeaderNoSize : Header :=
  [⟨RPMSIGTAG_SHA1, RPM_STRING_TYPE, [48, 57, 48, 57, 0], 1⟩]

/-- Stand-in collaborators of the add pipeline: every step succeeds, the
signers return a three-byte packet. -/
def toySignEnv : SignEnv where
  statSize := fun _ => some 1000
  domd5 := fun _ => some (List.replicate 16 3)
  makePGPSignature := fun _ _ => some ([1, 2, 3], 3)
  makeGPGSignature := fun _ _ => some ([4, 5, 6], 3)
  readHeader := fun _ => some [7, 7]
  immutable := fun h => some h
  makeTempFile := some "tmp".toList
  writeTemp := fun _ _ => true
  sha1 := toyDigest DigestAlgo.sha1
  headerAddOk := fun _ e => decide (0 < e.count)

/-! ## Auxiliary facts: C strings and the diagnostic buffer -/

theorem cstr_append_nul (s r : List Char) (h : NUL ∉ s) : cstr (s ++ NUL :: r) = s := by
  induction s with
  | nil => simp [cstr]
  | cons c cs ih =>
    have hc : c ≠ NUL := fun e => h (by simp [e])
    have hcs : NUL ∉ cs := fun m => h (by simp [m])
    have := ih hcs
    simp [cstr, hc] at this ⊢
    exact this

theorem text_stpcpy (b : OutBuf) (s : List Char) (h : NUL ∉ b.done) (hs : NUL ∉ s) :
    (b.stpcpy s).text = b.done ++ s := by
  unfold OutBuf.text OutBuf.mem OutBuf.stpcpy
  simp only
  apply cstr_append_nul
  simp [h, hs]

theorem done_write_skip (b : OutBuf) (s : List Char) (hs : NUL ∉ s) :
    ((b.write s).skip).done = b.done ++ s := by
  simp [OutBuf.write, OutBuf.skip, cstr_append_nul _ _ hs]

/-! ## Auxiliary facts: hexadecimal text -/

theorem hexDigit_ne_nul (n : Nat) : hexDigit n ≠ NUL := by
  unfold hexDigit
  by_cases h : n < 16
  · interval_cases n <;> decide
  · have : ("0123456789abcdef".toList).length ≤ n := by simp; omega
    rw [List.getD_eq_default _ _ this]; decide

theorem pgpHexCvt_cons (a : Nat) (s : List Nat) :
    pgpHexCvt (a :: s) = hexDigit (a / 16 % 16) :: hexDigit (a % 16) :: pgpHexCvt s := by
  simp [pgpHexCvt]

theorem length_pgpHexCvt (s : List Nat) : (pgpHexCvt s).length = 2 * s.length := by
  induction s with
  | nil => rfl
  | cons a s ih => rw [pgpHexCvt_cons]; simp [ih]; omega

theorem nul_not_mem_pgpHexCvt (s : List Nat) : NUL ∉ pgpHexCvt s := by
  induction s with
  | nil => simp [pgpHexCvt]
  | cons a s ih =>
    rw [pgpHexCvt_cons]
    intro hm
    rcases List.mem_cons.mp hm with e | hm
    · exact hexDigit_ne_nul _ e.symm
    · rcases List.mem_cons.mp hm with e | hm
      · exact hexDigit_ne_nul _ e.symm
      · exact ih hm

theorem nibble_hexDigit (k : Nat) (h : k < 16) : nibble (hexDigit k) = k := by
  interval_cases k <;> decide

set_option maxRecDepth 100000 in
theorem byte_of_nibbles :
    ∀ d : Nat, d < 256 → (((d / 16 % 16) <<< 4) ||| (d % 16)) % 256 = d := by
  decide

theorem pgpSignhash16_hex (d0 d1 : Nat) (rest : List Nat) (h0 : d0 < 256) (h1 : d1 < 256) :
    pgpSignhash16 (pgpHexCvt (d0 :: d1 :: rest)) = (d0, d1) := by
  simp only [pgpSignhash16, pgpHexCvt_cons, List.getD_cons_zero, List.getD_cons_succ]
  rw [nibble_hexDigit _ (by omega), nibble_hexDigit _ (by omega),
    nibble_hexDigit _ (by omega), nibble_hexDigit _ (by omega),
    byte_of_nibbles d0 h0, byte_of_nibbles d1 h1]

theorem top_bytes_of_word (d0 d1 d2 d3 : Nat) (h0 : d0 < 256) (h1 : d1 < 256) (h2 : d2 < 256)
    (h3 : d3 < 256) (w : Nat) (hw : w = ((d0 * 256 + d1) * 256 + d2) * 256 + d3) :
    ((w >>> 24) &&& 255, (w >>> 16) &&& 255) = (d0, d1) := by
  have e1 : w >>> 24 = d0 := by rw [Nat.shiftRight_eq_div_pow]; omega
  have e2 : w >>> 16 = d0 * 256 + d1 := by rw [Nat.shiftRight_eq_div_pow]; omega
  have m : ∀ x : Nat, x &&& 255 = x % 256 := by
    intro x
    exact Nat.and_pow_two_sub_one_eq_mod x 8
  rw [e1, e2, m, m]
  congr 1 <;> omega

theorem mp32nsethexFrom_step (c : Char) (cs : List Char) (val : Nat) (h : ¬ cs.length % 8 = 0) :
    mp32nsethexFrom (c :: cs) val = mp32nsethexFrom cs ((val * 16 + nibble c) % 4294967296) := by
  simp [mp32nsethexFrom, h]

theorem mp32nsethexFrom_store (c : Char) (cs : List Char) (val : Nat) (h : cs.length % 8 = 0) :
    mp32nsethexFrom (c :: cs) val
      = ((val * 16 + nibble c) % 4294967296) :: mp32nsethexFrom cs 0 := by
  simp [mp32nsethexFrom, h]

theorem gpgSignhash16_hex (d0 d1 d2 d3 : Nat) (rest : List Nat) (h0 : d0 < 256) (h1 : d1 < 256)
    (h2 : d2 < 256) (h3 : d3 < 256) (hr : rest.length % 4 = 0) :
    gpgSignhash16 (mp32nsethex (pgpHexCvt (d0 :: d1 :: d2 :: d3 :: rest))) = (d0, d1) := by
  have hl : (pgpHexCvt rest).length % 8 = 0 := by rw [length_pgpHexCvt]; omega
  unfold gpgSignhash16 mp32nsethex
  rw [pgpHexCvt_cons, pgpHexCvt_cons, pgpHexCvt_cons, pgpHexCvt_cons]
  rw [mp32nsethexFrom_step _ _ _ (by simp only [List.length_cons]; omega),
    mp32nsethexFrom_step _ _ _ (by simp only [List.length_cons]; omega),
    mp32nsethexFrom_step _ _ _ (by simp only [List.length_cons]; omega),
    mp32nsethexFrom_step _ _ _ (by simp only [List.length_cons]; omega),
    mp32nsethexFrom_step _ _ _ (by simp only [List.length_cons]; omega),
    mp32nsethexFrom_step _ _ _ (by simp only [List.length_cons]; omega),
    mp32nsethexFrom_step _ _ _ (by simp only [List.length_cons]; omega),
    mp32nsethexFrom_store _ _ _ hl]
  simp only [List.getD_cons_zero]
  rw [nibble_hexDigit _ (by omega), nibble_hexDigit _ (by omega),
    nibble_hexDigit _ (by omega), nibble_hexDigit _ (by omega),
    nibble_hexDigit _ (by omega), nibble_hexDigit _ (by omega),
    nibble_hexDigit _ (by omega), nibble_hexDigit _ (by omega)]
  apply top_bytes_of_word d0 d1 d2 d3 h0 h1 h2 h3
  omega

/-- Every digest of the environment has at least four bytes, a length that is
a multiple of four, and bytes below 256. -/
theorem digest_shape (env : Env) (a : DigestAlgo) (m : List Nat) :
    ∃ d0 d1 d2 d3 rest, env.digest a m = d0 :: d1 :: d2 :: d3 :: rest
      ∧ d0 < 256 ∧ d1 < 256 ∧ d2 < 256 ∧ d3 < 256 ∧ rest.length % 4 = 0 := by
  have hl := env.digest_length a m
  have hb := env.digest_byte a m
  match hd : env.digest a m with
  | [] => rw [hd] at hl; cases a <;> simp [DigestAlgo.digestlen] at hl
  | [_] => rw [hd] at hl; cases a <;> simp [DigestAlgo.digestlen] at hl
  | [_, _] => rw [hd] at hl; cases a <;> simp [DigestAlgo.digestlen] at hl
  | [_, _, _] => rw [hd] at hl; cases a <;> simp [DigestAlgo.digestlen] at hl
  | d0 :: d1 :: d2 :: d3 :: rest =>
    rw [hd] at hl hb
    refine ⟨d0, d1, d2, d3, rest, rfl, hb d0 (by simp), hb d1 (by simp), hb d2 (by simp),
      hb d3 (by simp), ?_⟩
    cases a <;> simp [DigestAlgo.digestlen] at hl <;> omega

theorem pgpSignhash16_digest (env : Env) (a : DigestAlgo) (m : List Nat) :
    pgpSignhash16 (pgpHexCvt (env.digest a m)) = leading16 (env.digest a m) := by
  obtain ⟨d0, d1, d2, d3, rest, e, h0, h1, -, -, -⟩ := digest_shape env a m
  rw [e, pgpSignhash16_hex d0 d1 _ h0 h1]
  rfl

theorem gpgSignhash16_digest (env : Env) (a : DigestAlgo) (m : List Nat) :
    gpgSignhash16 (mp32nsethex (pgpHexCvt (env.digest a m))) = leading16 (env.digest a m) := by
  obtain ⟨d0, d1, d2, d3, rest, e, h0, h1, h2, h3, hr⟩ := digest_shape env a m
  rw [e, gpgSignhash16_hex d0 d1 d2 d3 rest h0 h1 h2 h3 hr]
  rfl

/-! ## Auxiliary facts: the digest step -/

theorem getD_append_length {α : Type} (l : List α) (x d : α) :
    (l ++ [x]).getD l.length d = x := by
  simp [List.getD_eq_getElem?_getD]

theorem dupUpdateFinalHex_fst (env : Env) (ts : rpmts) (sigp : pgpDigParams) (ctx : Nat) :
    (dupUpdateFinalHex env ts sigp ctx).1 = pgpHexCvt (finalDigest env ts sigp ctx) := by
  unfold dupUpdateFinalHex finalDigest hashedData rpmDigestFinalHex rpmDigestFinal
  cases h : sigp.hash with
  | none => simp [rpmDigestDup, rpmts.ctxAt, getD_append_length]
  | some hs => simp [rpmDigestDup, rpmDigestUpdate, rpmts.ctxAt, getD_append_length]

theorem dupUpdateFinalHex_calls (env : Env) (ts : rpmts) (sigp : pgpDigParams) (ctx : Nat) :
    (dupUpdateFinalHex env ts sigp ctx).2.calls = ts.calls := by
  unfold dupUpdateFinalHex rpmDigestFinalHex rpmDigestFinal
  cases h : sigp.hash <;> simp [rpmDigestDup, rpmDigestUpdate]

theorem keyIdExit_fst (sigp : Option pgpDigParams) (res : rpmVerifySignatureReturn) (ts : rpmts)
    (t : OutBuf) : (keyIdExit sigp res ts t).1 = res := rfl

theorem keyIdExit_state (sigp : Option pgpDigParams) (res : rpmVerifySignatureReturn)
    (ts : rpmts) (t : OutBuf) : (keyIdExit sigp res ts t).2.1 = ts := rfl

theorem done_stpcpy (b : OutBuf) (s : List Char) : (b.stpcpy s).done = b.done ++ s := rfl

theorem done_write (b : OutBuf) (s : List Char) : (b.write s).done = b.done := rfl

theorem done_start (result : List Char) : (OutBuf.start result).done = [] := rfl

theorem nul_not_mem_rpmSigString (res : rpmVerifySignatureReturn) : NUL ∉ rpmSigString res := by
  cases res <;> decide

/-- The diagnostic written at `exit` by the public-key verifiers when `sigp`
is not null. -/
theorem keyIdExit_text (sp : pgpDigParams) (res : rpmVerifySignatureReturn) (ts : rpmts)
    (t : OutBuf) (h : NUL ∉ t.done) :
    (keyIdExit (some sp) res ts t).2.2.text
      = t.done ++ rpmSigString res ++ ", key ID ".toList
          ++ pgpHexCvt ((sp.signid.drop 4).take 4) ++ "\n".toList := by
  unfold keyIdExit
  simp only
  rw [text_stpcpy]
  · rw [done_write_skip _ _ (nul_not_mem_pgpHexCvt _)]
    simp [OutBuf.stpcpy]
  · rw [done_write_skip _ _ (nul_not_mem_pgpHexCvt _)]
    simp only [OutBuf.stpcpy, List.mem_append, not_or]
    exact ⟨⟨⟨h, nul_not_mem_rpmSigString res⟩, by decide⟩, nul_not_mem_pgpHexCvt _⟩
  · decide

theorem pgpLookupState_calls (env : Env) (ts : rpmts) (dig : pgpDig) (sigp : pgpDigParams)
    (ctx : Nat) : (pgpLookupState env ts dig sigp ctx).calls = ts.calls :=
  dupUpdateFinalHex_calls env ts sigp ctx

theorem gpgLookupState_calls (env : Env) (ts : rpmts) (dig : pgpDig) (sigp : pgpDigParams)
    (ctx : Nat) : (gpgLookupState env ts dig sigp ctx).calls = ts.calls :=
  dupUpdateFinalHex_calls env ts sigp ctx

theorem dupFinal_fst (env : Env) (ts : rpmts) (ctx : Nat) :
    (rpmDigestFinal env (rpmDigestDup ts ctx).2 (rpmDigestDup ts ctx).1).1
      = plainDigest env ts ctx := by
  simp [rpmDigestFinal, rpmDigestDup, plainDigest, rpmts.ctxAt, getD_append_length]

theorem dupFinalHex_fst (env : Env) (ts : rpmts) (ctx : Nat) :
    (rpmDigestFinalHex env (rpmDigestDup ts ctx).2 (rpmDigestDup ts ctx).1).1
      = pgpHexCvt (plainDigest env ts ctx) := by
  simp only [rpmDigestFinalHex, dupFinal_fst]

/-! ## Auxiliary facts: the dispatcher and the gates -/

theorem rpmVerifySignature_size (env : Env) (ts : rpmts) (result : List Char) (sig : List Nat)
    (dig : pgpDig) (hsig : ts.sig = some sig) (hlen : 0 < ts.siglen) (hdig : ts.dig = some dig)
    (htag : ts.sigtag = RPMSIGTAG_SIZE) :
    rpmVerifySignature env ts result
      = ((verifySizeSignature ts (OutBuf.start result)).1, ts,
          (verifySizeSignature ts (OutBuf.start result)).2) := by
  have hl : ¬ ts.siglen ≤ 0 := by omega
  simp only [rpmVerifySignature, hsig, hdig, hl, if_false, htag]

theorem rpmVerifySignature_sha1 (env : Env) (ts : rpmts) (result : List Char) (sig : List Nat)
    (dig : pgpDig) (hsig : ts.sig = some sig) (hlen : 0 < ts.siglen) (hdig : ts.dig = some dig)
    (htag : ts.sigtag = RPMSIGTAG_SHA1) :
    rpmVerifySignature env ts result
      = verifySHA1Signature env ts (OutBuf.start result) dig.hdrsha1ctx := by
  have hl : ¬ ts.siglen ≤ 0 := by omega
  simp only [rpmVerifySignature, hsig, hdig, hl, if_false, htag]

theorem rpmVerifySignature_gpg (env : Env) (ts : rpmts) (result : List Char) (sig : List Nat)
    (dig : pgpDig) (hsig : ts.sig = some sig) (hlen : 0 < ts.siglen) (hdig : ts.dig = some dig)
    (htag : ts.sigtag = RPMSIGTAG_GPG) :
    rpmVerifySignature env ts result
      = verifyGPGSignature env ts (OutBuf.start result) dig.sha1ctx := by
  have hl : ¬ ts.siglen ≤ 0 := by omega
  simp only [rpmVerifySignature, hsig, hdig, hl, if_false, htag]

/-- Whatever its arguments, `verifyPGPSignature` answers NOKEY without calling
any collaborator when the tag and the packet do not pass its sanity check. -/
theorem verifyPGPSignature_nokey (env : Env) (ts : rpmts) (t : OutBuf) (c : Option Nat)
    (h : ∀ sigp, ts.sigp = some sigp → ¬ (ts.sigtag = RPMSIGTAG_PGP
        ∧ sigp.pubkey_algo = PGPPUBKEYALGO_RSA ∧ sigp.hash_algo = PGPHASHALGO_MD5)) :
    (verifyPGPSignature env ts t c).1 = RPMSIG_NOKEY
      ∧ (verifyPGPSignature env ts t c).2.1.calls = ts.calls := by
  cases c <;> cases hs : ts.sig <;> cases hd : ts.dig <;> cases hp : ts.sigp <;>
    first
    | (simp only [verifyPGPSignature, hs, hd, hp, keyIdExit_fst, keyIdExit_state, and_self]; done)
    | simp only [verifyPGPSignature, hs, hd, hp, h _ hp, not_false_eq_true, if_true,
        keyIdExit_fst, keyIdExit_state, and_self]

/-- Whatever its arguments, `verifyGPGSignature` answers NOKEY without calling
any collaborator when the tag and the packet do not pass its sanity check. -/
theorem verifyGPGSignature_nokey (env : Env) (ts : rpmts) (t : OutBuf) (c : Option Nat)
    (h : ∀ sigp, ts.sigp = some sigp → ¬ ((ts.sigtag = RPMSIGTAG_GPG
        ∨ ts.sigtag = RPMSIGTAG_DSA) ∧ sigp.pubkey_algo = PGPPUBKEYALGO_DSA
        ∧ sigp.hash_algo = PGPHASHALGO_SHA1)) :
    (verifyGPGSignature env ts t c).1 = RPMSIG_NOKEY
      ∧ (verifyGPGSignature env ts t c).2.1.calls = ts.calls := by
  cases c <;> cases hs : ts.sig <;> cases hd : ts.dig <;> cases hp : ts.sigp <;>
    first
    | (simp only [verifyGPGSignature, hs, hd, hp, keyIdExit_fst, keyIdExit_state, and_self]; done)
    | simp only [verifyGPGSignature, hs, hd, hp, h _ hp, not_false_eq_true, if_true,
        keyIdExit_fst, keyIdExit_state, and_self]

/-- Past the argument and algorithm checks, `verifyGPGSignature` leaves in
`dig->sha1` the hex digest finalized from the duplicate of its context. -/
theorem verifyGPGSignature_sha1 (env : Env) (ts : rpmts) (t : OutBuf) (ctx : Nat)
    (sig : List Nat) (dig : pgpDig) (sigp : pgpDigParams)
    (hsig : ts.sig = some sig) (hdig : ts.dig = some dig) (hsigp : ts.sigp = some sigp)
    (hgate : (ts.sigtag = RPMSIGTAG_GPG ∨ ts.sigtag = RPMSIGTAG_DSA)
        ∧ sigp.pubkey_algo = PGPPUBKEYALGO_DSA ∧ sigp.hash_algo = PGPHASHALGO_SHA1) :
    (verifyGPGSignature env ts t (some ctx)).2.1.dig.bind (fun d => d.sha1)
      = some (pgpHexCvt (finalDigest env ts sigp ctx)) := by
  simp only [verifyGPGSignature, hsig, hdig, hsigp, hgate, and_self, not_true_eq_false,
    if_false]
  split
  · simp [keyIdExit_state, gpgLookupState, dupUpdateFinalHex_fst]
  · split
    · simp [keyIdExit_state, gpgKeyedDig, storeKeys, dupUpdateFinalHex_fst]
    · split <;> simp [keyIdExit_state, gpgKeyedDig, storeKeys, dupUpdateFinalHex_fst]

theorem verifySHA1Signature_fst (env : Env) (ts : rpmts) (t : OutBuf) (ctx : Nat)
    (sig : List Nat) (dig : pgpDig) (hsig : ts.sig = some sig) (hdig : ts.dig = some dig) :
    (verifySHA1Signature env ts t (some ctx)).1
      = if pgpHexCvt (plainDigest env ts ctx) = sigString sig then RPMSIG_OK else RPMSIG_BAD := by
  simp only [verifySHA1Signature, hsig, hdig, dupFinalHex_fst]
  by_cases h : pgpHexCvt (plainDigest env ts ctx) = sigString sig
  · rw [if_neg (by rw [h]; simp), if_pos h]
  · rw [if_pos (Or.inr h), if_neg h]

/-- Every `int_32` is read back from its four bytes. -/
theorem hostInt32_int32Bytes (v : Int) (h1 : -2147483648 ≤ v) (h2 : v < 2147483648) :
    hostInt32 (int32Bytes v) = v := by
  simp only [hostInt32, int32Bytes, toInt32, List.getD_cons_zero, List.getD_cons_succ]
  omega

theorem checkSize_regular (sizeofLead : Nat) (st : Stat) (siglen pad datalen : Int)
    (hreg : st.isReg = true) :
    checkSize sizeofLead (some st) siglen pad datalen
      = if toInt32 (sizeDifference sizeofLead siglen pad datalen st.st_size) = -32
          ∨ toInt32 (sizeDifference sizeofLead siglen pad datalen st.st_size) = 32
          ∨ toInt32 (sizeDifference sizeofLead siglen pad datalen st.st_size) = 0
        then RPMRC_OK else RPMRC_BADSIZE := by
  unfold checkSize
  simp only [hreg]
  rfl

/-- The verdict of `verifySizeSignature` for arguments that are not null. -/
theorem verifySizeSignature_fst (ts : rpmts) (t : OutBuf) (sig : List Nat) (dig : pgpDig)
    (hsig : ts.sig = some sig) (hdig : ts.dig = some dig) :
    (verifySizeSignature ts t).1
      = if dig.nbytes = 0 then RPMSIG_NOKEY
        else if hostInt32 sig ≠ (dig.nbytes : Int) then RPMSIG_BAD else RPMSIG_OK := by
  unfold verifySizeSignature
  simp only [hsig, hdig]
  by_cases h0 : dig.nbytes = 0
  · rw [if_pos h0, if_pos h0]
  · rw [if_neg h0, if_neg h0]
    by_cases he : hostInt32 sig ≠ (dig.nbytes : Int)
    · rw [if_pos he, if_pos he]
    · rw [if_neg he, if_neg he]

theorem verifySizeSignature_bad_text (ts : rpmts) (result : List Char) (sig : List Nat)
    (dig : pgpDig) (hsig : ts.sig = some sig) (hdig : ts.dig = some dig)
    (hne : hostInt32 sig ≠ (dig.nbytes : Int)) (hnz : dig.nbytes ≠ 0) :
    (verifySizeSignature ts (OutBuf.start result)).2.text
      = "Header+Payload size: ".toList ++ "BAD".toList ++ "\n".toList := by
  unfold verifySizeSignature
  simp only [hsig, hdig]
  rw [if_neg hnz, if_pos hne]
  show (OutBuf.stpcpy _ _).text = _
  rw [text_stpcpy _ _ (by
    simp only [done_write, done_stpcpy, done_start, rpmSigString]; decide) (by decide)]
  simp only [done_write, done_stpcpy, done_start, rpmSigString, List.nil_append]

/-! ## Auxiliary facts: the pad and the writer -/

theorem tmod_eight (s : Int) :
    (0 ≤ s ∧ s.tmod 8 = s % 8) ∨ (s < 0 ∧ s.tmod 8 = -((-s) % 8)) := by
  cases s with
  | ofNat n =>
    left
    exact ⟨Int.ofNat_nonneg n, Int.tmod_eq_emod (Int.ofNat_nonneg n) (by decide)⟩
  | negSucc m =>
    right
    refine ⟨Int.negSucc_lt_zero m, ?_⟩
    have e1 : (Int.negSucc m).tmod 8 = -(((m + 1) % 8 : Nat) : Int) := rfl
    have e2 : -(Int.negSucc m) = ((m + 1 : Nat) : Int) := rfl
    rw [e1, e2]
    omega

theorem sigPad_range (s : Int) : 0 ≤ sigPad s ∧ sigPad s ≤ 7 ∧ (s + sigPad s) % 8 = 0 := by
  unfold sigPad
  rcases tmod_eight s with ⟨hs, e⟩ | ⟨hs, e⟩
  · rw [e, Int.tmod_eq_emod (by omega) (by decide)]
    omega
  · rw [e, Int.tmod_eq_emod (by omega) (by decide)]
    omega

theorem Fwrite_fits (fd : OutFD) (bytes : List Nat) (h : bytes.length ≤ fd.room) :
    Fwrite fd bytes = (bytes.length, ⟨fd.out ++ bytes, fd.room - bytes.length⟩) := by
  unfold Fwrite
  rw [List.take_of_length_le h]

theorem Fwrite_full (fd : OutFD) (bytes : List Nat) (h : (Fwrite fd bytes).1 = bytes.length) :
    (Fwrite fd bytes).2.out = fd.out ++ bytes := by
  unfold Fwrite at h ⊢
  simp only at h ⊢
  have : bytes.length ≤ fd.room := by
    rw [List.length_take] at h; omega
  rw [List.take_of_length_le this]

theorem zeros_take (n : Nat) (h : n ≤ 8) : (List.replicate 8 0).take n = List.replicate n 0 := by
  interval_cases n <;> rfl

theorem headerWrite_ok (cdc : Codec) (fd : OutFD) (h : Header)
    (hok : (headerWrite cdc fd h).1 = 0) :
    (headerWrite cdc fd h).2.out = fd.out ++ cdc.headerImage h := by
  unfold headerWrite at hok ⊢
  simp only at hok ⊢
  by_cases e : (Fwrite fd (cdc.headerImage h)).1 = (cdc.headerImage h).length
  · exact Fwrite_full fd _ e
  · rw [if_neg e] at hok
    cases hok

theorem rpmWriteSignature_ok (cdc : Codec) (fd : OutFD) (h : Header)
    (hok : (rpmWriteSignature cdc fd h).1 = 0) :
    (rpmWriteSignature cdc fd h).2.out
      = fd.out ++ cdc.headerImage h ++ List.replicate (sigPad (cdc.headerSizeof h)).toNat 0 := by
  have hp := sigPad_range (cdc.headerSizeof h)
  unfold rpmWriteSignature at hok ⊢
  by_cases h1 : (headerWrite cdc fd h).1 ≠ 0
  · rw [if_pos h1] at hok
    exact absurd hok h1
  · rw [if_neg h1] at hok ⊢
    have h1' : (headerWrite cdc fd h).1 = 0 := not_not.mp h1
    have hw := headerWrite_ok cdc fd h h1'
    by_cases h2 : sigPad (cdc.headerSizeof h) ≠ 0
    · rw [if_pos h2] at hok ⊢
      have hz := zeros_take (sigPad (cdc.headerSizeof h)).toNat (by omega)
      by_cases h3 : (((Fwrite (headerWrite cdc fd h).2
          ((List.replicate 8 0).take (sigPad (cdc.headerSizeof h)).toNat)).1 : Nat) : Int)
          ≠ sigPad (cdc.headerSizeof h)
      · rw [if_pos h3] at hok
        cases hok
      · rw [if_neg h3]
        have h3' := not_not.mp h3
        have hfull : (Fwrite (headerWrite cdc fd h).2
            ((List.replicate 8 0).take (sigPad (cdc.headerSizeof h)).toNat)).1
            = ((List.replicate 8 0).take (sigPad (cdc.headerSizeof h)).toNat).length := by
          rw [hz, List.length_replicate]
          rw [hz] at h3'
          omega
        show (Fwrite _ _).2.out = _
        rw [Fwrite_full _ _ hfull, hw, hz]
    · rw [if_neg h2]
      have h2' : sigPad (cdc.headerSizeof h) = 0 := not_not.mp h2
      rw [hw, h2']
      simp

theorem rpmWriteSignature_room (cdc : Codec) (fd : OutFD) (h : Header)
    (hroom : (cdc.headerImage h).length + (sigPad (cdc.headerSizeof h)).toNat ≤ fd.room) :
    (rpmWriteSignature cdc fd h).1 = 0 := by
  have hp := sigPad_range (cdc.headerSizeof h)
  have hz := zeros_take (sigPad (cdc.headerSizeof h)).toNat (by omega)
  have hf := Fwrite_fits fd (cdc.headerImage h) (by omega)
  have hw : headerWrite cdc fd h
      = (0, ⟨fd.out ++ cdc.headerImage h, fd.room - (cdc.headerImage h).length⟩) := by
    unfold headerWrite
    rw [hf]
    simp
  unfold rpmWriteSignature
  rw [hw]
  simp only [ne_eq, not_true_eq_false, if_false]
  by_cases h2 : sigPad (cdc.headerSizeof h) = 0
  · simp [h2]
  · rw [if_pos h2, hz, Fwrite_fits _ _ (by simp only [List.length_replicate]; omega)]
    simp only [List.length_replicate]
    rw [if_neg (by omega)]

/-! ## Auxiliary facts: the reader -/

theorem readFinish_header (rc : rpmRC) (h : Option Header) (fd : FD) (errs : List rpmErrCode) :
    (readFinish rc h fd errs).1 = RPMRC_OK ∨ (readFinish rc h fd errs).2.1 = none := by
  unfold readFinish
  by_cases e : rc = RPMRC_OK
  · exact Or.inl e
  · right
    simp only
    rw [if_neg e]

theorem readPad_header (rc : rpmRC) (h : Header) (fd : FD) (pad : Int) :
    (readPad rc h fd pad).1 = RPMRC_OK ∨ (readPad rc h fd pad).2.1 = none := by
  unfold readPad
  split
  · split <;> exact readFinish_header _ _ _ _
  · exact readFinish_header _ _ _ _

/-- When enough bytes are left, `readPad` consumes the pad and keeps `rc`. -/
theorem readPad_enough (rc : rpmRC) (h : Header) (fd : FD) (pad : Int) (h0 : 0 ≤ pad)
    (hleft : fd.pos + pad.toNat ≤ fd.data.length) :
    readPad rc h fd pad = readFinish rc (some h) { fd with pos := fd.pos + pad.toNat } [] := by
  have hl : ((fd.data.drop fd.pos).take pad.toNat).length = pad.toNat := by
    rw [List.length_take, List.length_drop]; omega
  unfold readPad timedRead
  by_cases hp : pad ≠ 0
  · rw [if_pos hp]
    simp only [hl]
    rw [if_neg (by omega)]
  · rw [if_neg hp]
    have : pad = 0 := not_not.mp hp
    subst this
    rfl

/-- When fewer than `pad` bytes are left, `readPad` answers SHORTREAD. -/
theorem readPad_short (rc : rpmRC) (h : Header) (fd : FD) (pad : Int)
    (hleft : ((fd.data.length - fd.pos : Nat) : Int) < pad) :
    (readPad rc h fd pad).1 = RPMRC_SHORTREAD := by
  have hl : (((fd.data.drop fd.pos).take pad.toNat).length : Int) ≠ pad := by
    rw [List.length_take, List.length_drop]; omega
  unfold readPad timedRead
  rw [if_pos (by omega)]
  simp only
  rw [if_pos hl]
  rfl

/-! ## Auxiliary facts: null arguments of the verifiers -/

theorem verifyMD5Signature_null (env : Env) (ts : rpmts) (t : OutBuf) :
    (verifyMD5Signature env ts t none).1 = RPMSIG_NOKEY := by
  simp only [verifyMD5Signature]

theorem verifySHA1Signature_null (env : Env) (ts : rpmts) (t : OutBuf) :
    (verifySHA1Signature env ts t none).1 = RPMSIG_NOKEY := by
  simp only [verifySHA1Signature]

theorem verifyPGPSignature_null (env : Env) (ts : rpmts) (t : OutBuf) (c : Option Nat)
    (h : c = none ∨ ts.sigp = none) :
    (verifyPGPSignature env ts t c).1 = RPMSIG_NOKEY := by
  rcases h with h | h
  · subst h
    simp only [verifyPGPSignature, keyIdExit_fst]
  · cases c <;> cases hs : ts.sig <;> cases hd : ts.dig <;>
      simp only [verifyPGPSignature, hs, hd, h, keyIdExit_fst]

theorem verifyGPGSignature_null (env : Env) (ts : rpmts) (t : OutBuf) (c : Option Nat)
    (h : c = none ∨ ts.sigp = none) :
    (verifyGPGSignature env ts t c).1 = RPMSIG_NOKEY := by
  rcases h with h | h
  · subst h
    simp only [verifyGPGSignature, keyIdExit_fst]
  · cases c <;> cases hs : ts.sig <;> cases hd : ts.dig <;>
      simp only [verifyGPGSignature, hs, hd, h, keyIdExit_fst]

/-! ## Auxiliary facts: the signature add pipeline -/

/-- What one `headerAddEntry` followed by the test of its result leaves: the
header as it was with -1, or the header with the entry appended with 0. -/
theorem headerAddEntry_cases (addOk : Header → HeaderEntry → Bool) (h : Header)
    (e : HeaderEntry) :
    ((headerAddEntry addOk h e).1 = false ∧ (headerAddEntry addOk h e).2 = h)
    ∨ ((headerAddEntry addOk h e).1 = true ∧ (headerAddEntry addOk h e).2 = h ++ [e]) := by
  unfold headerAddEntry
  cases hk : addOk h e
  · left; simp
  · right; simp

theorem signHeaderOnly_cases (env : SignEnv) (sig : Header) (h : List Nat) (sigTag : SigTag)
    (signer : List Char → Option (List Char) → Option (List Nat × Int))
    (passPhrase : Option (List Char)) :
    ((signHeaderOnly env sig h sigTag signer passPhrase).1 = -1
        ∧ (signHeaderOnly env sig h sigTag signer passPhrase).2 = sig)
    ∨ ∃ pkt : List Nat × Int, (signHeaderOnly env sig h sigTag signer passPhrase).1 = 0
        ∧ (signHeaderOnly env sig h sigTag signer passPhrase).2
            = sig ++ [⟨sigTag, RPM_BIN_TYPE, pkt.1, pkt.2⟩] := by
  unfold signHeaderOnly
  split
  · exact Or.inl ⟨rfl, rfl⟩
  · split
    · exact Or.inl ⟨rfl, rfl⟩
    · split
      · exact Or.inl ⟨rfl, rfl⟩
      · rename_i pkt _
        rcases headerAddEntry_cases env.headerAddOk sig ⟨sigTag, RPM_BIN_TYPE, pkt.1, pkt.2⟩
          with ⟨h1, h2⟩ | ⟨h1, h2⟩
        · rw [if_pos h1, h2]
          exact Or.inl ⟨rfl, rfl⟩
        · rw [if_neg (by rw [h1]; decide), h2]
          exact Or.inr ⟨pkt, rfl, rfl⟩

/-- Every call of `makeHDRSignature` fails and leaves the signature header as
it was, or succeeds and appends one entry with the requested tag. -/
theorem makeHDRSignature_cases (env : SignEnv) (sig : Header) (file : List Char)
    (sigTag : SigTag) (passPhrase : Option (List Char)) :
    ((makeHDRSignature env sig file sigTag passPhrase).1 = -1
        ∧ (makeHDRSignature env sig file sigTag passPhrase).2 = sig)
    ∨ ∃ e : HeaderEntry, (makeHDRSignature env sig file sigTag passPhrase).1 = 0
        ∧ (makeHDRSignature env sig file sigTag passPhrase).2 = sig ++ [e]
        ∧ e.tag = sigTag
        ∧ (sigTag = RPMSIGTAG_DSA → e.type = RPM_BIN_TYPE) := by
  cases sigTag <;> first | exact Or.inl ⟨rfl, rfl⟩ | skip
  · simp only [makeHDRSignature]
    split
    · exact Or.inl ⟨rfl, rfl⟩
    · rename_i h _
      rcases signHeaderOnly_cases env sig h RPMSIGTAG_DSA env.makeGPGSignature passPhrase
        with hc | ⟨pkt, h1, h2⟩
      · exact Or.inl hc
      · exact Or.inr ⟨_, h1, h2, rfl, fun _ => rfl⟩
  · simp only [makeHDRSignature]
    split
    · exact Or.inl ⟨rfl, rfl⟩
    · rename_i h _
      rcases signHeaderOnly_cases env sig h RPMSIGTAG_RSA env.makePGPSignature passPhrase
        with hc | ⟨pkt, h1, h2⟩
      · exact Or.inl hc
      · exact Or.inr ⟨_, h1, h2, rfl, fun h => (by cases h)⟩
  · simp only [makeHDRSignature]
    split
    · exact Or.inl ⟨rfl, rfl⟩
    · split
      · exact Or.inl ⟨rfl, rfl⟩
      · rename_i uh _
        rcases headerAddEntry_cases env.headerAddOk sig
          ⟨RPMSIGTAG_SHA1, RPM_STRING_TYPE,
            (pgpHexCvt (env.sha1 (header_magic ++ uh))).map Char.toNat, 1⟩
          with ⟨h1, h2⟩ | ⟨h1, h2⟩
        · rw [if_pos h1, h2]
          exact Or.inl ⟨rfl, rfl⟩
        · rw [if_neg (by rw [h1]; decide), h2]
          exact Or.inr ⟨_, rfl, rfl, rfl, fun h => (by cases h)⟩

/-- One branch of `rpmAddSignature` that adds a single entry. -/
theorem addOne_cases (addOk : Header → HeaderEntry → Bool) (sig : Header) (e : HeaderEntry) :
    (if (headerAddEntry addOk sig e).1 = false then
        ((-1 : Int), (headerAddEntry addOk sig e).2)
      else (0, (headerAddEntry addOk sig e).2)).2 = sig
    ∨ (if (headerAddEntry addOk sig e).1 = false then
        ((-1 : Int), (headerAddEntry addOk sig e).2)
      else (0, (headerAddEntry addOk sig e).2)).2 = sig ++ [e] := by
  rcases headerAddEntry_cases addOk sig e with ⟨h1, h2⟩ | ⟨h1, h2⟩
  · rw [if_pos h1, h2]; exact Or.inl rfl
  · rw [if_neg (by rw [h1]; decide), h2]; exact Or.inr rfl

/-! ## Auxiliary facts: the hashed-message buffer -/

theorem put_inside (b : HexBuf) (pre post : List (Option Char)) (m : Option Char) (c : Char)
    (h : b.cells = pre ++ m :: post) :
    b.put (pre.length : Int) c = ⟨pre ++ some c :: post, b.oob⟩ := by
  unfold HexBuf.put
  have hlen : (pre.length : Int) < (b.cells.length : Int) := by
    rw [h]; simp only [List.length_append, List.length_cons]; omega
  rw [if_pos ⟨Int.ofNat_nonneg _, hlen⟩, h]
  simp

theorem puts_inside (s : List Char) :
    ∀ (b : HexBuf) (pre mid post : List (Option Char)),
      b.cells = pre ++ mid ++ post → mid.length = s.length →
      b.puts (pre.length : Int) s = ⟨pre ++ s.map some ++ post, b.oob⟩ := by
  induction s with
  | nil =>
    intro b pre mid post h hm
    have : mid = [] := List.length_eq_zero.mp hm
    subst this
    cases b
    simp only [HexBuf.puts, List.map_nil, List.append_nil] at h ⊢
    rw [h]
  | cons c cs ih =>
    intro b pre mid post h hm
    cases mid with
    | nil => cases hm
    | cons m ms =>
      have hput := put_inside b pre (ms ++ post) m c (by rw [h]; simp)
      have hstep := ih (b.put (pre.length : Int) c) (pre ++ [some c]) ms post
        (by rw [hput]; simp) (by simpa using hm)
      simp only [HexBuf.puts]
      have hidx : ((pre ++ [some c]).length : Int) = (pre.length : Int) + 1 := by simp
      rw [hidx] at hstep
      rw [hstep, hput]
      simp

/-- The form of `puts_inside` used on a buffer whose cells are known. -/
theorem puts_at (cells pre mid post : List (Option Char)) (o : Bool) (i : Int) (s : List Char)
    (h : cells = pre ++ mid ++ post) (hm : mid.length = s.length) (hi : i = (pre.length : Int)) :
    (HexBuf.mk cells o).puts i s = ⟨pre ++ s.map some ++ post, o⟩ := by
  rw [hi]
  exact puts_inside s ⟨cells, o⟩ pre mid post h hm

theorem rsaHexstr_steps (md5 : List Char) (hlen : md5.length = 32) :
    rsaHexstr md5
      = (((((HexBuf.mk (List.replicate 257 none) false).puts 0 (List.replicate 256 'f')).puts 0
          "0001".toList).puts 186 "00".toList).puts 188
          ("3020300c06082a864886f70d020505000410".toList ++ [NUL])).puts 224 (md5 ++ [NUL]) := by
  unfold rsaHexstr
  simp only [hlen]
  rfl

theorem replicate_split {α : Type} (a : α) (m n k : Nat) (h : k = m + n) :
    List.replicate k a = List.replicate m a ++ List.replicate n a := by
  rw [h, List.replicate_add]

theorem rsaHexstr_buf (d : List Char) (hlen : d.length = 32) :
    rsaHexstr d
      = ⟨("0001".toList ++ List.replicate 182 'f' ++ "00".toList
            ++ "3020300c06082a864886f70d020505000410".toList ++ d ++ [NUL]).map some, false⟩ := by
  have h1 : (HexBuf.mk (List.replicate 257 none) false).puts 0 (List.replicate 256 'f')
      = ⟨List.replicate 256 (some 'f') ++ [none], false⟩ := by
    rw [puts_at (List.replicate 257 none) [] (List.replicate 256 none) [none] false 0
      (List.replicate 256 'f') (List.replicate_succ' 256 none)
      (by rw [List.length_replicate, List.length_replicate]) rfl]
    simp only [List.nil_append, List.map_replicate]
  have h2 : (HexBuf.mk (List.replicate 256 (some 'f') ++ [none]) false).puts 0 "0001".toList
      = ⟨"0001".toList.map some ++ (List.replicate 252 (some 'f') ++ [none]), false⟩ := by
    rw [puts_at _ [] (List.replicate 4 (some 'f')) (List.replicate 252 (some 'f') ++ [none])
      false 0 "0001".toList
      (by rw [replicate_split (some 'f') 4 252 256 rfl]
          simp only [List.append_assoc, List.nil_append])
      rfl rfl]
    simp only [List.append_assoc, List.nil_append]
  have h3 : (HexBuf.mk ("0001".toList.map some ++ (List.replicate 252 (some 'f') ++ [none]))
        false).puts 186 "00".toList
      = ⟨"0001".toList.map some ++ (List.replicate 182 (some 'f') ++ ("00".toList.map some
          ++ (List.replicate 68 (some 'f') ++ [none]))), false⟩ := by
    rw [puts_at _ ("0001".toList.map some ++ List.replicate 182 (some 'f'))
      (List.replicate 2 (some 'f')) (List.replicate 68 (some 'f') ++ [none]) false 186
      "00".toList
      (by rw [replicate_split (some 'f') 182 70 252 rfl, replicate_split (some 'f') 2 68 70 rfl]
          simp only [List.append_assoc])
      rfl (by rw [List.length_append, List.length_replicate]; rfl)]
    simp only [List.append_assoc]
  have h4 : (HexBuf.mk ("0001".toList.map some ++ (List.replicate 182 (some 'f')
        ++ ("00".toList.map some ++ (List.replicate 68 (some 'f') ++ [none])))) false).puts 188
        ("3020300c06082a864886f70d020505000410".toList ++ [NUL])
      = ⟨"0001".toList.map some ++ (List.replicate 182 (some 'f') ++ ("00".toList.map some
          ++ (("3020300c06082a864886f70d020505000410".toList ++ [NUL]).map some
          ++ (List.replicate 31 (some 'f') ++ [none])))), false⟩ := by
    rw [puts_at _
      ("0001".toList.map some ++ List.replicate 182 (some 'f') ++ "00".toList.map some)
      (List.replicate 37 (some 'f')) (List.replicate 31 (some 'f') ++ [none]) false 188
      ("3020300c06082a864886f70d020505000410".toList ++ [NUL])
      (by rw [replicate_split (some 'f') 37 31 68 rfl]
          simp only [List.append_assoc])
      rfl (by rw [List.length_append, List.length_append, List.length_replicate]; rfl)]
    simp only [List.append_assoc]
  have h5 : (HexBuf.mk ("0001".toList.map some ++ (List.replicate 182 (some 'f')
        ++ ("00".toList.map some
          ++ (("3020300c06082a864886f70d020505000410".toList ++ [NUL]).map some
          ++ (List.replicate 31 (some 'f') ++ [none]))))) false).puts 224 (d ++ [NUL])
      = ⟨("0001".toList ++ List.replicate 182 'f' ++ "00".toList
            ++ "3020300c06082a864886f70d020505000410".toList ++ d ++ [NUL]).map some, false⟩ := by
    rw [puts_at _
      ("0001".toList.map some ++ List.replicate 182 (some 'f') ++ "00".toList.map some
        ++ "3020300c06082a864886f70d020505000410".toList.map some)
      (some NUL :: List.replicate 31 (some 'f') ++ [none]) [] false 224 (d ++ [NUL])
      (by simp only [List.map_append, List.map_cons, List.map_nil, List.append_assoc,
            List.cons_append, List.nil_append, List.append_nil])
      (by rw [List.length_append, List.length_append, hlen, List.length_cons,
            List.length_replicate]; rfl)
      (by rw [List.length_append, List.length_append, List.length_append,
            List.length_replicate]; rfl)]
    simp only [List.map_append, List.map_replicate, List.append_assoc, List.append_nil]
  rw [rsaHexstr_steps d hlen, h1, h2, h3, h4, h5]

theorem rsaHexstr_cells (d : List Char) (hlen : d.length = 32) :
    (rsaHexstr d).cells
      = ("0001".toList ++ List.replicate 182 'f' ++ "00".toList
            ++ "3020300c06082a864886f70d020505000410".toList ++ d ++ [NUL]).map some := by
  rw [rsaHexstr_buf d hlen]

theorem nul_not_mem_emsa_head :
    NUL ∉ "0001".toList ++ List.replicate 182 'f' ++ "00".toList
            ++ "3020300c06082a864886f70d020505000410".toList := by
  simp only [List.mem_append, not_or, List.mem_replicate]
  exact ⟨⟨⟨by decide, fun h => absurd h.2 (by decide)⟩, by decide⟩, by decide⟩

theorem length_emsa_head :
    ("0001".toList ++ List.replicate 182 'f' ++ "00".toList
            ++ "3020300c06082a864886f70d020505000410".toList).length = 224 := by
  simp only [List.length_append, List.length_replicate]
  rfl

theorem rsaHexstr_str (d : List Char) (hlen : d.length = 32) (hnul : NUL ∉ d) :
    (rsaHexstr d).str
      = "0001".toList ++ List.replicate 182 'f' ++ "00".toList
            ++ "3020300c06082a864886f70d020505000410".toList ++ d := by
  unfold HexBuf.str
  rw [rsaHexstr_cells d hlen, List.map_map]
  have hid : (fun c : Option Char => c.getD NUL) ∘ some = id := rfl
  rw [hid, List.map_id]
  apply cstr_append_nul
  intro hmem
  rcases List.mem_append.mp hmem with h | h
  · exact nul_not_mem_emsa_head h
  · exact hnul h

/-! ## Auxiliary facts: the digest contexts are left as they were -/

/-- Finalizing a fresh duplicate leaves the heap as it was, with one released
cell after it. -/
theorem dupFinal_state (env : Env) (ts : rpmts) (ctx : Nat) :
    (rpmDigestFinal env (rpmDigestDup ts ctx).2 (rpmDigestDup ts ctx).1).2
      = { ts with heap := ts.heap ++ [none] } := by
  simp [rpmDigestFinal, rpmDigestDup]

theorem dupUpdateFinalHex_state (env : Env) (ts : rpmts) (sigp : pgpDigParams) (ctx : Nat) :
    (dupUpdateFinalHex env ts sigp ctx).2 = { ts with heap := ts.heap ++ [none] } := by
  unfold dupUpdateFinalHex rpmDigestFinalHex rpmDigestFinal
  cases h : sigp.hash <;> simp [rpmDigestDup, rpmDigestUpdate]

/-- A heap that differs only by a released cell after the end holds the same
context objects. -/
theorem ctxAt_of_heap (ts r : rpmts) (h : r.heap = ts.heap ∨ r.heap = ts.heap ++ [none])
    (p : Nat) : r.ctxAt p = ts.ctxAt p := by
  unfold rpmts.ctxAt
  rcases h with h | h
  · rw [h]
  · rw [h]
    congr 1
    simp only [List.getD_eq_getElem?_getD]
    by_cases hp : p < ts.heap.length
    · rw [List.getElem?_append_left hp]
    · have hp2 : ts.heap.length ≤ p := Nat.le_of_not_lt hp
      rw [List.getElem?_append_right hp2, List.getElem?_eq_none hp2]
      cases hq : p - ts.heap.length <;> simp

theorem verifyMD5Signature_frame (env : Env) (ts : rpmts) (t : OutBuf) (c : Option Nat) :
    ((verifyMD5Signature env ts t c).2.1.heap = ts.heap
        ∨ (verifyMD5Signature env ts t c).2.1.heap = ts.heap ++ [none])
    ∧ (verifyMD5Signature env ts t c).2.1.dig = ts.dig := by
  unfold verifyMD5Signature
  simp only
  split
  · split
    · rw [dupFinal_state]; exact ⟨Or.inr rfl, rfl⟩
    · rw [dupFinal_state]; exact ⟨Or.inr rfl, rfl⟩
  · exact ⟨Or.inl rfl, rfl⟩

theorem verifySHA1Signature_frame (env : Env) (ts : rpmts) (t : OutBuf) (c : Option Nat) :
    ((verifySHA1Signature env ts t c).2.1.heap = ts.heap
        ∨ (verifySHA1Signature env ts t c).2.1.heap = ts.heap ++ [none])
    ∧ (verifySHA1Signature env ts t c).2.1.dig = ts.dig := by
  unfold verifySHA1Signature
  simp only [rpmDigestFinalHex]
  split
  · split
    · rw [dupFinal_state]; exact ⟨Or.inr rfl, rfl⟩
    · rw [dupFinal_state]; exact ⟨Or.inr rfl, rfl⟩
  · exact ⟨Or.inl rfl, rfl⟩

theorem verifyPGPSignature_frame (env : Env) (ts : rpmts) (t : OutBuf) (c : Option Nat) :
    ((verifyPGPSignature env ts t c).2.1.heap = ts.heap
        ∨ (verifyPGPSignature env ts t c).2.1.heap = ts.heap ++ [none])
    ∧ (verifyPGPSignature env ts t c).2.1.dig.map
          (fun g => (g.md5ctx, g.sha1ctx, g.hdrsha1ctx))
        = ts.dig.map (fun g => (g.md5ctx, g.sha1ctx, g.hdrsha1ctx)) := by
  unfold verifyPGPSignature
  simp only
  split
  · rename_i ctx sig dig sigp hc hs hd hp
    split
    · rw [keyIdExit_state]; exact ⟨Or.inl rfl, rfl⟩
    · split
      · rw [keyIdExit_state, dupUpdateFinalHex_state]
        exact ⟨Or.inr rfl, by rw [hd]; rfl⟩
      · split
        · rw [keyIdExit_state]
          simp only [pgpLookupState, pgpKeyedDig, storeKeys, dupUpdateFinalHex_state]
          exact ⟨Or.inr trivial, by rw [hd]; rfl⟩
        · split
          · rw [keyIdExit_state]
            simp only [pgpLookupState, pgpKeyedDig, storeKeys, dupUpdateFinalHex_state]
            exact ⟨Or.inr trivial, by rw [hd]; rfl⟩
          · rw [keyIdExit_state]
            simp only [pgpLookupState, pgpKeyedDig, storeKeys, dupUpdateFinalHex_state]
            exact ⟨Or.inr trivial, by rw [hd]; rfl⟩
  · rw [keyIdExit_state]; exact ⟨Or.inl rfl, rfl⟩

theorem verifyGPGSignature_frame (env : Env) (ts : rpmts) (t : OutBuf) (c : Option Nat) :
    ((verifyGPGSignature env ts t c).2.1.heap = ts.heap
        ∨ (verifyGPGSignature env ts t c).2.1.heap = ts.heap ++ [none])
    ∧ (verifyGPGSignature env ts t c).2.1.dig.map
          (fun g => (g.md5ctx, g.sha1ctx, g.hdrsha1ctx))
        = ts.dig.map (fun g => (g.md5ctx, g.sha1ctx, g.hdrsha1ctx)) := by
  unfold verifyGPGSignature
  simp only
  split
  · rename_i ctx sig dig sigp hc hs hd hp
    split
    · rw [keyIdExit_state]; exact ⟨Or.inl rfl, rfl⟩
    · split
      · rw [keyIdExit_state]
        simp only [gpgLookupState, dupUpdateFinalHex_state]
        exact ⟨Or.inr trivial, by rw [hd]; rfl⟩
      · split
        · rw [keyIdExit_state]
          simp only [gpgLookupState, gpgKeyedDig, storeKeys, dupUpdateFinalHex_state]
          exact ⟨Or.inr trivial, by rw [hd]; rfl⟩
        · split
          · rw [keyIdExit_state]
            simp only [gpgLookupState, gpgKeyedDig, storeKeys, dupUpdateFinalHex_state]
            exact ⟨Or.inr trivial, by rw [hd]; rfl⟩
          · rw [keyIdExit_state]
            simp only [gpgLookupState, gpgKeyedDig, storeKeys, dupUpdateFinalHex_state]
            exact ⟨Or.inr trivial, by rw [hd]; rfl⟩
  · rw [keyIdExit_state]; exact ⟨Or.inl rfl, rfl⟩

/-- The dispatcher leaves the heap as it was up to one released cell after
the end, and the three context pointers of the Dig bag as they were. -/
theorem rpmVerifySignature_frame (env : Env) (ts : rpmts) (result : List Char) :
    ((rpmVerifySignature env ts result).2.1.heap = ts.heap
        ∨ (rpmVerifySignature env ts result).2.1.heap = ts.heap ++ [none])
    ∧ (rpmVerifySignature env ts result).2.1.dig.map
          (fun g => (g.md5ctx, g.sha1ctx, g.hdrsha1ctx))
        = ts.dig.map (fun g => (g.md5ctx, g.sha1ctx, g.hdrsha1ctx)) := by
  unfold rpmVerifySignature
  split
  · split
    · exact ⟨Or.inl rfl, rfl⟩
    · split
      · exact ⟨Or.inl rfl, rfl⟩
      · exact ⟨(verifyMD5Signature_frame env ts _ _).1,
          by rw [(verifyMD5Signature_frame env ts _ _).2]⟩
      · exact ⟨(verifySHA1Signature_frame env ts _ _).1,
          by rw [(verifySHA1Signature_frame env ts _ _).2]⟩
      · exact verifyPGPSignature_frame env ts _ _
      · exact verifyPGPSignature_frame env ts _ _
      · exact verifyPGPSignature_frame env ts _ _
      · exact verifyGPGSignature_frame env ts _ _
      · exact verifyGPGSignature_frame env ts _ _
      · exact ⟨Or.inl rfl, rfl⟩
      · exact ⟨Or.inl rfl, rfl⟩
      · exact ⟨Or.inl rfl, rfl⟩
  · exact ⟨Or.inl rfl, rfl⟩

/-! ## The properties -/

/-- C1, prefix gate.  In `verifyPGPSignature` and in `verifyGPGSignature`
alike, for arguments that are not null and a tag and packet that pass the
algorithm check, if the leading two bytes of the digest finalized from the
duplicated context differ from the `signhash16` of the packet, the verdict is
BAD and the record of calls is unchanged: neither the keyring lookup nor
`rsavrfy` / `dsavrfy` has been invoked. -/
theorem prefix_gate (env : Env) (ts : rpmts) (t : OutBuf) (ctx : Nat) (sig : List Nat)
    (dig : pgpDig) (sigp : pgpDigParams)
    (hsig : ts.sig = some sig) (hdig : ts.dig = some dig) (hsigp : ts.sigp = some sigp)
    (hne : leading16 (finalDigest env ts sigp ctx) ≠ sigp.signhash16) :
    (ts.sigtag = RPMSIGTAG_PGP ∧ sigp.pubkey_algo = PGPPUBKEYALGO_RSA
        ∧ sigp.hash_algo = PGPHASHALGO_MD5 →
      (verifyPGPSignature env ts t (some ctx)).1 = RPMSIG_BAD
        ∧ (verifyPGPSignature env ts t (some ctx)).2.1.calls = ts.calls)
    ∧ ((ts.sigtag = RPMSIGTAG_GPG ∨ ts.sigtag = RPMSIGTAG_DSA)
        ∧ sigp.pubkey_algo = PGPPUBKEYALGO_DSA ∧ sigp.hash_algo = PGPHASHALGO_SHA1 →
      (verifyGPGSignature env ts t (some ctx)).1 = RPMSIG_BAD
        ∧ (verifyGPGSignature env ts t (some ctx)).2.1.calls = ts.calls) := by
  have hp : pgpSignhash16 (dupUpdateFinalHex env ts sigp ctx).1 ≠ sigp.signhash16 := by
    rw [dupUpdateFinalHex_fst, finalDigest, pgpSignhash16_digest]; exact hne
  have hg : gpgSignhash16 (mp32nsethex (dupUpdateFinalHex env ts sigp ctx).1)
      ≠ sigp.signhash16 := by
    rw [dupUpdateFinalHex_fst, finalDigest, gpgSignhash16_digest]; exact hne
  constructor
  · intro hgate
    simp only [verifyPGPSignature, hsig, hdig, hsigp, hgate, and_self, not_true_eq_false,
      if_false, hp, ne_eq, not_false_eq_true, if_true, keyIdExit_fst, keyIdExit_state,
      dupUpdateFinalHex_calls]
  · intro hgate
    simp only [verifyGPGSignature, hsig, hdig, hsigp, hgate, and_self, not_true_eq_false,
      if_false, hg, ne_eq, not_false_eq_true, if_true, keyIdExit_fst, keyIdExit_state,
      gpgLookupState_calls]

/-- C1 at a concrete input: packets whose `signhash16` is `de ad` against toy
digests `03 03 ...` and `09 09 ...`, for the RSA and for the DSA verifier. -/
theorem prefix_gate_witness :
    ((verifyPGPSignature (toyEnv RPMSIG_OK true)
        (toyTs RPMSIGTAG_PGP [7] 1 117 (toyParams PGPPUBKEYALGO_RSA PGPHASHALGO_MD5 (222, 173)))
        (OutBuf.start []) (some 0)).1 = RPMSIG_BAD
      ∧ (verifyPGPSignature (toyEnv RPMSIG_OK true)
        (toyTs RPMSIGTAG_PGP [7] 1 117 (toyParams PGPPUBKEYALGO_RSA PGPHASHALGO_MD5 (222, 173)))
        (OutBuf.start []) (some 0)).2.1.calls = [])
    ∧ ((verifyGPGSignature (toyEnv RPMSIG_OK true)
        (toyTs RPMSIGTAG_DSA [7] 1 117 (toyParams PGPPUBKEYALGO_DSA PGPHASHALGO_SHA1 (222, 173)))
        (OutBuf.start []) (some 2)).1 = RPMSIG_BAD
      ∧ (verifyGPGSignature (toyEnv RPMSIG_OK true)
        (toyTs RPMSIGTAG_DSA [7] 1 117 (toyParams PGPPUBKEYALGO_DSA PGPHASHALGO_SHA1 (222, 173)))
        (OutBuf.start []) (some 2)).2.1.calls = []) :=
  ⟨(prefix_gate (toyEnv RPMSIG_OK true)
      (toyTs RPMSIGTAG_PGP [7] 1 117 (toyParams PGPPUBKEYALGO_RSA PGPHASHALGO_MD5 (222, 173)))
      (OutBuf.start []) 0 [7] (toyDig 117) (toyParams PGPPUBKEYALGO_RSA PGPHASHALGO_MD5 (222, 173))
      rfl rfl rfl (by decide)).1 ⟨rfl, rfl, rfl⟩,
   (prefix_gate (toyEnv RPMSIG_OK true)
      (toyTs RPMSIGTAG_DSA [7] 1 117 (toyParams PGPPUBKEYALGO_DSA PGPHASHALGO_SHA1 (222, 173)))
      (OutBuf.start []) 2 [7] (toyDig 117) (toyParams PGPPUBKEYALGO_DSA PGPHASHALGO_SHA1 (222, 173))
      rfl rfl rfl (by decide)).2 ⟨Or.inr rfl, rfl, rfl⟩⟩

/-- C2, algorithm gate.  For a signature that is present (not null, positive
`siglen`), a Dig bag and packet parameters that are not null, and a tag that
`rpmVerifySignature` dispatches to a public-key verifier: when the packet does
not declare RSA with MD5 (tags PGP, PGP5, RSA), respectively DSA with SHA1
(tags GPG, DSA), the verdict is NOKEY and no collaborator has been called. -/
theorem algorithm_gate (env : Env) (ts : rpmts) (result : List Char) (sig : List Nat)
    (dig : pgpDig) (sigp : pgpDigParams)
    (hsig : ts.sig = some sig) (hlen : 0 < ts.siglen) (hdig : ts.dig = some dig)
    (hsigp : ts.sigp = some sigp)
    (hbad : ((ts.sigtag = RPMSIGTAG_PGP ∨ ts.sigtag = RPMSIGTAG_PGP5 ∨ ts.sigtag = RPMSIGTAG_RSA)
          ∧ ¬ (sigp.pubkey_algo = PGPPUBKEYALGO_RSA ∧ sigp.hash_algo = PGPHASHALGO_MD5))
      ∨ ((ts.sigtag = RPMSIGTAG_GPG ∨ ts.sigtag = RPMSIGTAG_DSA)
          ∧ ¬ (sigp.pubkey_algo = PGPPUBKEYALGO_DSA ∧ sigp.hash_algo = PGPHASHALGO_SHA1))) :
    (rpmVerifySignature env ts result).1 = RPMSIG_NOKEY
      ∧ (rpmVerifySignature env ts result).2.1.calls = ts.calls := by
  have hl : ¬ ts.siglen ≤ 0 := by omega
  rcases hbad with ⟨htag, halg⟩ | ⟨htag, halg⟩
  · have hp : ∀ sp, ts.sigp = some sp → ¬ (ts.sigtag = RPMSIGTAG_PGP
        ∧ sp.pubkey_algo = PGPPUBKEYALGO_RSA ∧ sp.hash_algo = PGPHASHALGO_MD5) := by
      intro sp hsp hh
      rw [hsigp] at hsp
      cases hsp
      exact halg hh.2
    rcases htag with h | h | h <;>
      simp only [rpmVerifySignature, hsig, hdig, hl, if_false, h] <;>
      exact verifyPGPSignature_nokey env ts _ _ hp
  · have hg : ∀ sp, ts.sigp = some sp → ¬ ((ts.sigtag = RPMSIGTAG_GPG
        ∨ ts.sigtag = RPMSIGTAG_DSA) ∧ sp.pubkey_algo = PGPPUBKEYALGO_DSA
        ∧ sp.hash_algo = PGPHASHALGO_SHA1) := by
      intro sp hsp hh
      rw [hsigp] at hsp
      cases hsp
      exact halg hh.2
    rcases htag with h | h <;>
      simp only [rpmVerifySignature, hsig, hdig, hl, if_false, h] <;>
      exact verifyGPGSignature_nokey env ts _ _ hg

/-- C2 at a concrete input: tag PGP with a packet that declares DSA. -/
theorem algorithm_gate_witness :
    (rpmVerifySignature (toyEnv RPMSIG_OK true)
        (toyTs RPMSIGTAG_PGP [7] 1 117 (toyParams PGPPUBKEYALGO_DSA PGPHASHALGO_MD5 (3, 3)))
        []).1 = RPMSIG_NOKEY
      ∧ (rpmVerifySignature (toyEnv RPMSIG_OK true)
        (toyTs RPMSIGTAG_PGP [7] 1 117 (toyParams PGPPUBKEYALGO_DSA PGPHASHALGO_MD5 (3, 3)))
        []).2.1.calls = [] :=
  algorithm_gate (toyEnv RPMSIG_OK true)
    (toyTs RPMSIGTAG_PGP [7] 1 117 (toyParams PGPPUBKEYALGO_DSA PGPHASHALGO_MD5 (3, 3))) []
    [7] (toyDig 117) (toyParams PGPPUBKEYALGO_DSA PGPHASHALGO_MD5 (3, 3))
    rfl (by decide) rfl rfl (Or.inl ⟨Or.inl rfl, by decide⟩)

/-- C3, the code at the failing input.  The packet declares RSA with MD5, its
`signhash16` is the leading two bytes of the finalized MD5, the lookup answers
OK and `rsavrfy` succeeds: with tag PGP5 `rpmVerifySignature` answers NOKEY
(the sanity check of `verifyPGPSignature` admits the tag PGP only), while the
same input with tag PGP is answered OK. -/
theorem pgp5_rsa_md5_is_nokey :
    leading16 (finalDigest (toyEnv RPMSIG_OK true)
        (toyTs RPMSIGTAG_PGP5 [7] 1 117 (toyParams PGPPUBKEYALGO_RSA PGPHASHALGO_MD5 (3, 3)))
        (toyParams PGPPUBKEYALGO_RSA PGPHASHALGO_MD5 (3, 3)) 0) = (3, 3)
    ∧ (rpmVerifySignature (toyEnv RPMSIG_OK true)
        (toyTs RPMSIGTAG_PGP5 [7] 1 117 (toyParams PGPPUBKEYALGO_RSA PGPHASHALGO_MD5 (3, 3)))
        []).1 = RPMSIG_NOKEY
    ∧ (rpmVerifySignature (toyEnv RPMSIG_OK true)
        (toyTs RPMSIGTAG_PGP [7] 1 117 (toyParams PGPPUBKEYALGO_RSA PGPHASHALGO_MD5 (3, 3)))
        []).1 = RPMSIG_OK := by
  decide

/-- C4, DSA header-only success.  On tag DSA, with a signature that is present
and a packet that declares DSA with SHA1, whose `signhash16` is the leading two
bytes of the digest finalized from the duplicate of `hdrsha1ctx`, when the
lookup answers OK and `dsavrfy` succeeds: the verdict is OK, the diagnostic
starts with "Header V3 DSA signature: OK", and the hex digest left in
`dig->sha1` is the one of `hdrsha1ctx`.  On tag GPG the digest left in
`dig->sha1` is the one of `sha1ctx`. -/
theorem dsa_header_only_ok (env : Env) (ts : rpmts) (result : List Char) (sig : List Nat)
    (dig : pgpDig) (sigp : pgpDigParams) (ctx : Nat)
    (hsig : ts.sig = some sig) (hlen : 0 < ts.siglen) (hdig : ts.dig = some dig)
    (hsigp : ts.sigp = some sigp) (htag : ts.sigtag = RPMSIGTAG_DSA)
    (hctx : dig.hdrsha1ctx = some ctx)
    (halg : sigp.pubkey_algo = PGPPUBKEYALGO_DSA ∧ sigp.hash_algo = PGPHASHALGO_SHA1)
    (hpre : sigp.signhash16 = leading16 (finalDigest env ts sigp ctx))
    (hlook : (env.rpmtsFindPubkey (gpgLookupState env ts dig sigp ctx)).1 = RPMSIG_OK)
    (hvrfy : env.dsavrfy (gpgKeyedDig env ts dig sigp ctx).p (gpgKeyedDig env ts dig sigp ctx).q
      (gpgKeyedDig env ts dig sigp ctx).g (gpgKeyedDig env ts dig sigp ctx).hm
      (gpgKeyedDig env ts dig sigp ctx).y (gpgKeyedDig env ts dig sigp ctx).r
      (gpgKeyedDig env ts dig sigp ctx).s = true) :
    (rpmVerifySignature env ts result).1 = RPMSIG_OK
      ∧ "Header V3 DSA signature: OK".toList <+: (rpmVerifySignature env ts result).2.2.text
      ∧ (rpmVerifySignature env ts result).2.1.dig.bind (fun d => d.sha1)
          = some (pgpHexCvt (finalDigest env ts sigp ctx))
      ∧ (∀ c, dig.sha1ctx = some c →
          (rpmVerifySignature env { ts with sigtag := RPMSIGTAG_GPG } result).2.1.dig.bind
              (fun d => d.sha1)
            = some (pgpHexCvt (finalDigest env ts sigp c))) := by
  have hl : ¬ ts.siglen ≤ 0 := by omega
  have hg : gpgSignhash16 (mp32nsethex (dupUpdateFinalHex env ts sigp ctx).1)
      = sigp.signhash16 := by
    rw [dupUpdateFinalHex_fst, finalDigest, gpgSignhash16_digest]; exact hpre.symm
  have hrun : rpmVerifySignature env ts result
      = keyIdExit (some sigp) RPMSIG_OK
          { gpgLookupState env ts dig sigp ctx with
            dig := some (gpgKeyedDig env ts dig sigp ctx)
            calls := (gpgLookupState env ts dig sigp ctx).calls
              ++ [ExtCall.findPubkey] ++ [ExtCall.dsavrfy] }
          ((((OutBuf.start result).write []).stpcpy "Header ".toList).stpcpy
            "V3 DSA signature: ".toList) := by
    simp only [rpmVerifySignature, hsig, hdig, hl, if_false, htag, hctx, verifyGPGSignature,
      hsigp, halg, and_self, not_true_eq_false, hg, ne_eq, hlook, not_false_eq_true, if_true,
      hvrfy, or_true]
  refine ⟨?_, ?_, ?_, ?_⟩
  · rw [hrun]; rfl
  · rw [hrun, keyIdExit_text _ _ _ _
      (by simp [OutBuf.stpcpy, OutBuf.write, OutBuf.start]; decide)]
    refine ⟨", key ID ".toList ++ pgpHexCvt ((sigp.signid.drop 4).take 4) ++ "\n".toList, ?_⟩
    simp [OutBuf.stpcpy, OutBuf.write, OutBuf.start, rpmSigString]
  · rw [hrun]
    simp [keyIdExit_state, gpgKeyedDig, storeKeys, dupUpdateFinalHex_fst]
  · intro c hc
    rw [rpmVerifySignature_gpg env { ts with sigtag := RPMSIGTAG_GPG } result sig dig hsig hlen
      hdig rfl, hc]
    exact verifyGPGSignature_sha1 env { ts with sigtag := RPMSIGTAG_GPG } (OutBuf.start result)
      c sig dig sigp hsig hdig hsigp ⟨Or.inl rfl, halg⟩

/-- C4 at a concrete input: the header-only context hashes to `09 09 ...`
and the packet carries `signhash16 = 09 09`. -/
theorem dsa_header_only_ok_witness :
    (rpmVerifySignature (toyEnv RPMSIG_OK true)
        (toyTs RPMSIGTAG_DSA [7] 1 117 (toyParams PGPPUBKEYALGO_DSA PGPHASHALGO_SHA1 (9, 9)))
        []).1 = RPMSIG_OK
      ∧ "Header V3 DSA signature: OK".toList <+: (rpmVerifySignature (toyEnv RPMSIG_OK true)
        (toyTs RPMSIGTAG_DSA [7] 1 117 (toyParams PGPPUBKEYALGO_DSA PGPHASHALGO_SHA1 (9, 9)))
        []).2.2.text :=
  ⟨(dsa_header_only_ok (toyEnv RPMSIG_OK true)
      (toyTs RPMSIGTAG_DSA [7] 1 117 (toyParams PGPPUBKEYALGO_DSA PGPHASHALGO_SHA1 (9, 9))) []
      [7] (toyDig 117) (toyParams PGPPUBKEYALGO_DSA PGPHASHALGO_SHA1 (9, 9)) 2
      rfl (by decide) rfl rfl rfl rfl ⟨rfl, rfl⟩ (by decide) rfl rfl).1,
   (dsa_header_only_ok (toyEnv RPMSIG_OK true)
      (toyTs RPMSIGTAG_DSA [7] 1 117 (toyParams PGPPUBKEYALGO_DSA PGPHASHALGO_SHA1 (9, 9))) []
      [7] (toyDig 117) (toyParams PGPPUBKEYALGO_DSA PGPHASHALGO_SHA1 (9, 9)) 2
      rfl (by decide) rfl rfl rfl rfl ⟨rfl, rfl⟩ (by decide) rfl rfl).2.1⟩

/-- C5, key-lookup propagation.  In both public-key verifiers, for a signature
that is present, once the algorithm check and the `signhash16` check have
passed, a lookup result other than OK is the verdict of `rpmVerifySignature`,
and the lookup is the only collaborator that has been called (`rsavrfy` /
`dsavrfy` is not). -/
theorem lookup_propagation (env : Env) (ts : rpmts) (result : List Char) (sig : List Nat)
    (dig : pgpDig) (sigp : pgpDigParams) (ctx : Nat)
    (hsig : ts.sig = some sig) (hlen : 0 < ts.siglen) (hdig : ts.dig = some dig)
    (hsigp : ts.sigp = some sigp)
    (hpre : leading16 (finalDigest env ts sigp ctx) = sigp.signhash16) :
    (ts.sigtag = RPMSIGTAG_PGP → dig.md5ctx = some ctx →
      sigp.pubkey_algo = PGPPUBKEYALGO_RSA ∧ sigp.hash_algo = PGPHASHALGO_MD5 →
      (env.rpmtsFindPubkey (pgpLookupState env ts dig sigp ctx)).1 ≠ RPMSIG_OK →
      (rpmVerifySignature env ts result).1
          = (env.rpmtsFindPubkey (pgpLookupState env ts dig sigp ctx)).1
        ∧ (rpmVerifySignature env ts result).2.1.calls = ts.calls ++ [ExtCall.findPubkey])
    ∧ ((ts.sigtag = RPMSIGTAG_GPG ∧ dig.sha1ctx = some ctx
          ∨ ts.sigtag = RPMSIGTAG_DSA ∧ dig.hdrsha1ctx = some ctx) →
      sigp.pubkey_algo = PGPPUBKEYALGO_DSA ∧ sigp.hash_algo = PGPHASHALGO_SHA1 →
      (env.rpmtsFindPubkey (gpgLookupState env ts dig sigp ctx)).1 ≠ RPMSIG_OK →
      (rpmVerifySignature env ts result).1
          = (env.rpmtsFindPubkey (gpgLookupState env ts dig sigp ctx)).1
        ∧ (rpmVerifySignature env ts result).2.1.calls = ts.calls ++ [ExtCall.findPubkey]) := by
  have hl : ¬ ts.siglen ≤ 0 := by omega
  have hp : pgpSignhash16 (dupUpdateFinalHex env ts sigp ctx).1 = sigp.signhash16 := by
    rw [dupUpdateFinalHex_fst, finalDigest, pgpSignhash16_digest]; exact hpre
  have hg : gpgSignhash16 (mp32nsethex (dupUpdateFinalHex env ts sigp ctx).1)
      = sigp.signhash16 := by
    rw [dupUpdateFinalHex_fst, finalDigest, gpgSignhash16_digest]; exact hpre
  constructor
  · intro htag hctx halg hlook
    simp only [rpmVerifySignature, hsig, hdig, hl, if_false, htag, hctx, verifyPGPSignature,
      hsigp, halg, and_self, not_true_eq_false, hp, ne_eq, hlook, not_false_eq_true, if_true,
      keyIdExit_fst, keyIdExit_state, pgpLookupState_calls]
  · intro htag halg hlook
    rcases htag with ⟨htag, hctx⟩ | ⟨htag, hctx⟩ <;>
      simp only [rpmVerifySignature, hsig, hdig, hl, if_false, htag, hctx, verifyGPGSignature,
        hsigp, halg, and_self, not_true_eq_false, hg, ne_eq, hlook, not_false_eq_true, if_true,
        keyIdExit_fst, keyIdExit_state, gpgLookupState_calls, true_or, or_true]

/-- C5 at a concrete input: a lookup that answers NOTTRUSTED, for the RSA and
for the DSA verifier. -/
theorem lookup_propagation_witness :
    ((rpmVerifySignature (toyEnv RPMSIG_NOTTRUSTED true)
        (toyTs RPMSIGTAG_PGP [7] 1 117 (toyParams PGPPUBKEYALGO_RSA PGPHASHALGO_MD5 (3, 3)))
        []).1 = RPMSIG_NOTTRUSTED
      ∧ (rpmVerifySignature (toyEnv RPMSIG_NOTTRUSTED true)
        (toyTs RPMSIGTAG_PGP [7] 1 117 (toyParams PGPPUBKEYALGO_RSA PGPHASHALGO_MD5 (3, 3)))
        []).2.1.calls = [ExtCall.findPubkey])
    ∧ ((rpmVerifySignature (toyEnv RPMSIG_NOTTRUSTED true)
        (toyTs RPMSIGTAG_GPG [7] 1 117 (toyParams PGPPUBKEYALGO_DSA PGPHASHALGO_SHA1 (3, 3)))
        []).1 = RPMSIG_NOTTRUSTED
      ∧ (rpmVerifySignature (toyEnv RPMSIG_NOTTRUSTED true)
        (toyTs RPMSIGTAG_GPG [7] 1 117 (toyParams PGPPUBKEYALGO_DSA PGPHASHALGO_SHA1 (3, 3)))
        []).2.1.calls = [ExtCall.findPubkey]) :=
  ⟨(lookup_propagation (toyEnv RPMSIG_NOTTRUSTED true)
      (toyTs RPMSIGTAG_PGP [7] 1 117 (toyParams PGPPUBKEYALGO_RSA PGPHASHALGO_MD5 (3, 3))) []
      [7] (toyDig 117) (toyParams PGPPUBKEYALGO_RSA PGPHASHALGO_MD5 (3, 3)) 0
      rfl (by decide) rfl rfl (by decide)).1 rfl rfl ⟨rfl, rfl⟩ (by decide),
   (lookup_propagation (toyEnv RPMSIG_NOTTRUSTED true)
      (toyTs RPMSIGTAG_GPG [7] 1 117 (toyParams PGPPUBKEYALGO_DSA PGPHASHALGO_SHA1 (3, 3))) []
      [7] (toyDig 117) (toyParams PGPPUBKEYALGO_DSA PGPHASHALGO_SHA1 (3, 3)) 1
      rfl (by decide) rfl rfl (by decide)).2 (Or.inl ⟨rfl, rfl⟩) ⟨rfl, rfl⟩ (by decide)⟩

/-- C6, refuted as stated.  A declared size of 0 equals a streamed byte count
of 0, yet `rpmVerifySignature` on tag SIZE answers NOKEY, not OK: a Dig bag
that has streamed no byte is treated like a missing argument. -/
theorem size_verdict_counterexample :
    hostInt32 (int32Bytes 0) = ((toyDig 0).nbytes : Int)
    ∧ (rpmVerifySignature (toyEnv RPMSIG_OK true)
        (toyTs RPMSIGTAG_SIZE (int32Bytes 0) 1 0
          (toyParams PGPPUBKEYALGO_RSA PGPHASHALGO_MD5 (3, 3))) []).1 = RPMSIG_NOKEY := by
  decide

/-- C6, amended.  For every declared size read from the SIZE payload and
every streamed byte count, `rpmVerifySignature` on tag SIZE (signature present,
Dig bag not null) answers OK if and only if the declared size equals
`dig->nbytes` and `dig->nbytes` is not zero. -/
theorem size_verdict (env : Env) (ts : rpmts) (result : List Char) (sig : List Nat)
    (dig : pgpDig) (hsig : ts.sig = some sig) (hlen : 0 < ts.siglen) (hdig : ts.dig = some dig)
    (htag : ts.sigtag = RPMSIGTAG_SIZE) :
    (rpmVerifySignature env ts result).1 = RPMSIG_OK
      ↔ (hostInt32 sig = (dig.nbytes : Int) ∧ dig.nbytes ≠ 0) := by
  rw [rpmVerifySignature_size env ts result sig dig hsig hlen hdig htag]
  show (verifySizeSignature ts (OutBuf.start result)).1 = RPMSIG_OK ↔ _
  rw [verifySizeSignature_fst ts _ sig dig hsig hdig]
  by_cases h0 : dig.nbytes = 0
  · rw [if_pos h0]
    exact ⟨fun h => (by cases h), fun h => absurd h0 h.2⟩
  · rw [if_neg h0]
    by_cases he : hostInt32 sig ≠ (dig.nbytes : Int)
    · rw [if_pos he]
      exact ⟨fun h => (by cases h), fun h => absurd h.1 he⟩
    · rw [if_neg he]
      exact ⟨fun _ => ⟨not_not.mp he, h0⟩, fun _ => rfl⟩

/-- C6 amended, at a concrete input: declared size 117, 117 bytes streamed. -/
theorem size_verdict_witness :
    (rpmVerifySignature (toyEnv RPMSIG_OK true)
        (toyTs RPMSIGTAG_SIZE (int32Bytes 117) 1 117
          (toyParams PGPPUBKEYALGO_RSA PGPHASHALGO_MD5 (3, 3))) []).1 = RPMSIG_OK :=
  (size_verdict (toyEnv RPMSIG_OK true)
    (toyTs RPMSIGTAG_SIZE (int32Bytes 117) 1 117
      (toyParams PGPPUBKEYALGO_RSA PGPHASHALGO_MD5 (3, 3))) [] (int32Bytes 117) (toyDig 117)
    rfl (by decide) rfl rfl).mpr ⟨by decide, by decide⟩

/-- C7, refuted as stated.  With a declared size of 17 and no byte streamed
the sizes differ and the verdict is NOKEY, not BAD.  With a declared size of
100 and 117 bytes streamed the verdict is BAD and the diagnostic the caller
reads is "Header+Payload size: BAD" and a newline: it does not contain
"Expected(100) != (117)". -/
theorem size_mismatch_counterexample :
    (hostInt32 (int32Bytes 17) ≠ ((toyDig 0).nbytes : Int)
      ∧ (rpmVerifySignature (toyEnv RPMSIG_OK true)
          (toyTs RPMSIGTAG_SIZE (int32Bytes 17) 1 0
            (toyParams PGPPUBKEYALGO_RSA PGPHASHALGO_MD5 (3, 3))) []).1 = RPMSIG_NOKEY)
    ∧ (hostInt32 (int32Bytes 100) ≠ ((toyDig 117).nbytes : Int)
      ∧ (rpmVerifySignature (toyEnv RPMSIG_OK true)
          (toyTs RPMSIGTAG_SIZE (int32Bytes 100) 1 117
            (toyParams PGPPUBKEYALGO_RSA PGPHASHALGO_MD5 (3, 3))) []).2.2.text
          = "Header+Payload size: BAD\n".toList
      ∧ ¬ ("Expected(100) != (117)".toList <:+:
          (rpmVerifySignature (toyEnv RPMSIG_OK true)
            (toyTs RPMSIGTAG_SIZE (int32Bytes 100) 1 117
              (toyParams PGPPUBKEYALGO_RSA PGPHASHALGO_MD5 (3, 3))) []).2.2.text)) := by
  decide

/-- C7, amended.  Whenever the declared size differs from the streamed byte
count and that count is not zero, `rpmVerifySignature` on tag SIZE (signature
present, Dig bag not null) answers BAD and the diagnostic starts with
"Header+Payload size: BAD". -/
theorem size_mismatch_bad (env : Env) (ts : rpmts) (result : List Char) (sig : List Nat)
    (dig : pgpDig) (hsig : ts.sig = some sig) (hlen : 0 < ts.siglen) (hdig : ts.dig = some dig)
    (htag : ts.sigtag = RPMSIGTAG_SIZE) (hne : hostInt32 sig ≠ (dig.nbytes : Int))
    (hnz : dig.nbytes ≠ 0) :
    (rpmVerifySignature env ts result).1 = RPMSIG_BAD
      ∧ "Header+Payload size: BAD".toList <+: (rpmVerifySignature env ts result).2.2.text := by
  rw [rpmVerifySignature_size env ts result sig dig hsig hlen hdig htag]
  constructor
  · show (verifySizeSignature ts (OutBuf.start result)).1 = RPMSIG_BAD
    rw [verifySizeSignature_fst ts _ sig dig hsig hdig, if_neg hnz, if_pos hne]
  · show _ <+: (verifySizeSignature ts (OutBuf.start result)).2.text
    rw [verifySizeSignature_bad_text ts result sig dig hsig hdig hne hnz]
    exact ⟨"\n".toList, by decide⟩

/-- C7 amended, at a concrete input: declared size 100, 117 bytes streamed. -/
theorem size_mismatch_bad_witness :
    (rpmVerifySignature (toyEnv RPMSIG_OK true)
        (toyTs RPMSIGTAG_SIZE (int32Bytes 100) 1 117
          (toyParams PGPPUBKEYALGO_RSA PGPHASHALGO_MD5 (3, 3))) []).1 = RPMSIG_BAD
      ∧ "Header+Payload size: BAD".toList <+: (rpmVerifySignature (toyEnv RPMSIG_OK true)
        (toyTs RPMSIGTAG_SIZE (int32Bytes 100) 1 117
          (toyParams PGPPUBKEYALGO_RSA PGPHASHALGO_MD5 (3, 3))) []).2.2.text :=
  size_mismatch_bad (toyEnv RPMSIG_OK true)
    (toyTs RPMSIGTAG_SIZE (int32Bytes 100) 1 117
      (toyParams PGPPUBKEYALGO_RSA PGPHASHALGO_MD5 (3, 3))) [] (int32Bytes 100) (toyDig 117)
    rfl (by decide) rfl rfl (by decide) (by decide)

/-- C8, MD5 verdict.  With `md5ctx`, the signature and the Dig bag not null,
and `siglen` the length of the stored BIN payload, `verifyMD5Signature`
answers OK exactly when the digest finalized from the duplicate of `md5ctx`
has the length and the bytes of the payload; otherwise it answers BAD and the
diagnostic is "MD5 digest: BAD Expected(<hex of the payload>) != (<hex of the
digest>)" and a newline, so that it contains both hex strings. -/
theorem md5_verdict (env : Env) (ts : rpmts) (result : List Char) (ctx : Nat) (sig : List Nat)
    (dig : pgpDig) (hsig : ts.sig = some sig) (hdig : ts.dig = some dig)
    (hlen : ts.siglen = (sig.length : Int)) :
    ((verifyMD5Signature env ts (OutBuf.start result) (some ctx)).1 = RPMSIG_OK
        ↔ ((plainDigest env ts ctx).length = sig.length ∧ plainDigest env ts ctx = sig))
    ∧ (¬ ((plainDigest env ts ctx).length = sig.length ∧ plainDigest env ts ctx = sig) →
        (verifyMD5Signature env ts (OutBuf.start result) (some ctx)).1 = RPMSIG_BAD
        ∧ (verifyMD5Signature env ts (OutBuf.start result) (some ctx)).2.2.text
            = "MD5 digest: BAD Expected(".toList ++ pgpHexCvt sig ++ ") != (".toList
                ++ pgpHexCvt (plainDigest env ts ctx) ++ ")\n".toList
        ∧ pgpHexCvt sig <:+: (verifyMD5Signature env ts (OutBuf.start result) (some ctx)).2.2.text
        ∧ pgpHexCvt (plainDigest env ts ctx)
            <:+: (verifyMD5Signature env ts (OutBuf.start result) (some ctx)).2.2.text) := by
  have hcond : ((((plainDigest env ts ctx).length : Nat) : Int) ≠ ts.siglen
        ∨ plainDigest env ts ctx ≠ sig.take (plainDigest env ts ctx).length)
      ↔ ¬ ((plainDigest env ts ctx).length = sig.length ∧ plainDigest env ts ctx = sig) := by
    rw [hlen]
    constructor
    · rintro (h | h) ⟨h1, h2⟩
      · exact h (by exact_mod_cast h1)
      · apply h
        rw [h1, List.take_length]; exact h2
    · intro h
      by_cases h1 : (plainDigest env ts ctx).length = sig.length
      · right
        intro h2
        apply h
        refine ⟨h1, ?_⟩
        rw [h1, List.take_length] at h2; exact h2
      · left
        exact_mod_cast h1
  have htake : sig.take ts.siglen.toNat = sig := by
    rw [hlen]; simp
  have hs := nul_not_mem_pgpHexCvt sig
  have hd := nul_not_mem_pgpHexCvt (plainDigest env ts ctx)
  by_cases hc : (plainDigest env ts ctx).length = sig.length ∧ plainDigest env ts ctx = sig
  · have hc' := (not_congr hcond).mpr (not_not.mpr hc)
    have hres : (verifyMD5Signature env ts (OutBuf.start result) (some ctx)).1 = RPMSIG_OK := by
      simp only [verifyMD5Signature, hsig, hdig, dupFinal_fst, if_neg hc']
    exact ⟨⟨fun _ => hc, fun _ => hres⟩, fun h => absurd hc h⟩
  · have hc' := hcond.mpr hc
    have hres : (verifyMD5Signature env ts (OutBuf.start result) (some ctx)).1 = RPMSIG_BAD := by
      simp only [verifyMD5Signature, hsig, hdig, dupFinal_fst, if_pos hc']
    have htext : (verifyMD5Signature env ts (OutBuf.start result) (some ctx)).2.2.text
            = "MD5 digest: BAD Expected(".toList ++ pgpHexCvt sig ++ ") != (".toList
                ++ pgpHexCvt (plainDigest env ts ctx) ++ ")\n".toList := by
      simp only [verifyMD5Signature, hsig, hdig, dupFinal_fst, if_pos hc', htake]
      rw [text_stpcpy _ _ _ (by decide)]
      · simp only [done_stpcpy, done_write_skip _ _ hs, done_write_skip _ _ hd, done_write,
          done_start, rpmSigString, List.nil_append, List.append_assoc]
        simp
      · simp only [done_stpcpy, done_write_skip _ _ hs, done_write_skip _ _ hd, done_write,
          done_start, rpmSigString, List.mem_append, not_or, List.nil_append]
        exact ⟨⟨⟨⟨⟨⟨by decide, by decide⟩, by decide⟩, hs⟩, by decide⟩, hd⟩, by decide⟩
    refine ⟨⟨fun h => ?_, fun h => absurd h hc⟩, fun _ => ⟨hres, htext, ?_, ?_⟩⟩
    · rw [hres] at h; cases h
    · rw [htext]
      exact ⟨"MD5 digest: BAD Expected(".toList,
        ") != (".toList ++ pgpHexCvt (plainDigest env ts ctx) ++ ")\n".toList, by simp⟩
    · rw [htext]
      exact ⟨"MD5 digest: BAD Expected(".toList ++ pgpHexCvt sig ++ ") != (".toList,
        ")\n".toList, by simp⟩

/-- C8 at a concrete input: a stored payload of sixteen bytes `ff` against a
toy digest of sixteen bytes `03`. -/
theorem md5_verdict_witness :
    (verifyMD5Signature (toyEnv RPMSIG_OK true)
        (toyTs RPMSIGTAG_MD5 (List.replicate 16 255) 16 117
          (toyParams PGPPUBKEYALGO_RSA PGPHASHALGO_MD5 (3, 3)))
        (OutBuf.start []) (some 0)).1 = RPMSIG_BAD
      ∧ (verifyMD5Signature (toyEnv RPMSIG_OK true)
        (toyTs RPMSIGTAG_MD5 (List.replicate 16 255) 16 117
          (toyParams PGPPUBKEYALGO_RSA PGPHASHALGO_MD5 (3, 3)))
        (OutBuf.start []) (some 0)).2.2.text
        = ("MD5 digest: BAD Expected(ffffffffffffffffffffffffffffffff) != "
            ++ "(03030303030303030303030303030303)\n").toList :=
  ⟨((md5_verdict (toyEnv RPMSIG_OK true)
      (toyTs RPMSIGTAG_MD5 (List.replicate 16 255) 16 117
        (toyParams PGPPUBKEYALGO_RSA PGPHASHALGO_MD5 (3, 3)))
      [] 0 (List.replicate 16 255) (toyDig 117) rfl rfl (by decide)).2 (by decide)).1,
   ((md5_verdict (toyEnv RPMSIG_OK true)
      (toyTs RPMSIGTAG_MD5 (List.replicate 16 255) 16 117
        (toyParams PGPPUBKEYALGO_RSA PGPHASHALGO_MD5 (3, 3)))
      [] 0 (List.replicate 16 255) (toyDig 117) rfl rfl (by decide)).2 (by decide)).2.1.trans
      (by decide)⟩

/-- C9, SHA1 verdict.  With the signature present and `hdrsha1ctx` and the Dig
bag not null, `rpmVerifySignature` on tag SHA1 answers OK exactly when the
lowercase hex digest finalized from the duplicate of `hdrsha1ctx` equals the
string stored in the SHA1 tag, and BAD otherwise; the verdict is the same
whatever `dig->sha1ctx` is. -/
theorem sha1_verdict (env : Env) (ts : rpmts) (result : List Char) (sig : List Nat)
    (dig : pgpDig) (ctx : Nat) (hsig : ts.sig = some sig) (hlen : 0 < ts.siglen)
    (hdig : ts.dig = some dig) (htag : ts.sigtag = RPMSIGTAG_SHA1)
    (hctx : dig.hdrsha1ctx = some ctx) :
    ((rpmVerifySignature env ts result).1 = RPMSIG_OK
        ↔ pgpHexCvt (plainDigest env ts ctx) = sigString sig)
    ∧ (pgpHexCvt (plainDigest env ts ctx) ≠ sigString sig →
        (rpmVerifySignature env ts result).1 = RPMSIG_BAD)
    ∧ (∀ other : Option Nat,
        (rpmVerifySignature env { ts with dig := some { dig with sha1ctx := other } } result).1
          = (rpmVerifySignature env ts result).1) := by
  have h1 : (rpmVerifySignature env ts result).1
      = if pgpHexCvt (plainDigest env ts ctx) = sigString sig then RPMSIG_OK else RPMSIG_BAD := by
    rw [rpmVerifySignature_sha1 env ts result sig dig hsig hlen hdig htag, hctx]
    exact verifySHA1Signature_fst env ts _ ctx sig dig hsig hdig
  refine ⟨?_, ?_, ?_⟩
  · rw [h1]
    by_cases h : pgpHexCvt (plainDigest env ts ctx) = sigString sig
    · simp [h]
    · simp [h]
  · intro h
    rw [h1, if_neg h]
  · intro other
    have h2 := verifySHA1Signature_fst env { ts with dig := some { dig with sha1ctx := other } }
      (OutBuf.start result) ctx sig { dig with sha1ctx := other } hsig rfl
    have h3 := rpmVerifySignature_sha1 env { ts with dig := some { dig with sha1ctx := other } }
      result sig { dig with sha1ctx := other } hsig hlen rfl htag
    have e : ({ dig with sha1ctx := other } : pgpDig).hdrsha1ctx = some ctx := hctx
    rw [h1, h3]
    exact (congrArg (fun c => (verifySHA1Signature env
      { ts with dig := some { dig with sha1ctx := other } } (OutBuf.start result) c).1) e).trans h2

/-- C9 at a concrete input: the stored string is the hex of the toy digest
`09 09 ...` of the header-only context. -/
theorem sha1_verdict_witness :
    (rpmVerifySignature (toyEnv RPMSIG_OK true)
        (toyTs RPMSIGTAG_SHA1
          ("0909090909090909090909090909090909090909".toList.map Char.toNat ++ [0])
          1 117 (toyParams PGPPUBKEYALGO_RSA PGPHASHALGO_MD5 (3, 3))) []).1 = RPMSIG_OK :=
  (sha1_verdict (toyEnv RPMSIG_OK true)
    (toyTs RPMSIGTAG_SHA1 ("0909090909090909090909090909090909090909".toList.map Char.toNat ++ [0])
      1 117 (toyParams PGPPUBKEYALGO_RSA PGPHASHALGO_MD5 (3, 3))) []
    ("0909090909090909090909090909090909090909".toList.map Char.toNat ++ [0]) (toyDig 117) 2
    rfl (by decide) rfl rfl rfl).1.mpr (by decide)

/-- C10, the code at the failing input.  A regular file of 4294968496 bytes
against an expected length of 96 + 104 + 0 + 1000 = 1200: the difference is
-4294967296, which is none of -32, 0, 32, and `checkSize` answers OK, because
`int delta` keeps only the low 32 bits of the difference. -/
theorem checkSize_wraps :
    sizeDifference 96 104 0 1000 4294968496 = -4294967296
    ∧ checkSize 96 (some ⟨true, 4294968496⟩) 104 0 1000 = RPMRC_OK := by
  decide

/-- What `checkSize` does when the difference fits an `int`: for a regular file
the answer is OK if and only if the difference is -32, 0 or 32, and BADSIZE
otherwise. -/
theorem checkSize_small_difference (sizeofLead : Nat) (st : Stat) (siglen pad datalen : Int)
    (hreg : st.isReg = true)
    (hlo : -2147483648 ≤ sizeDifference sizeofLead siglen pad datalen st.st_size)
    (hhi : sizeDifference sizeofLead siglen pad datalen st.st_size < 2147483648) :
    (checkSize sizeofLead (some st) siglen pad datalen = RPMRC_OK
      ↔ (sizeDifference sizeofLead siglen pad datalen st.st_size = -32
        ∨ sizeDifference sizeofLead siglen pad datalen st.st_size = 0
        ∨ sizeDifference sizeofLead siglen pad datalen st.st_size = 32))
    ∧ (checkSize sizeofLead (some st) siglen pad datalen = RPMRC_OK
      ∨ checkSize sizeofLead (some st) siglen pad datalen = RPMRC_BADSIZE) := by
  have e : toInt32 (sizeDifference sizeofLead siglen pad datalen st.st_size)
      = sizeDifference sizeofLead siglen pad datalen st.st_size := by
    unfold toInt32; omega
  rw [checkSize_regular sizeofLead st siglen pad datalen hreg, e]
  by_cases h : sizeDifference sizeofLead siglen pad datalen st.st_size = -32
      ∨ sizeDifference sizeofLead siglen pad datalen st.st_size = 32
      ∨ sizeDifference sizeofLead siglen pad datalen st.st_size = 0
  · rw [if_pos h]
    refine ⟨⟨fun _ => ?_, fun _ => rfl⟩, Or.inl rfl⟩
    rcases h with h | h | h
    · exact Or.inl h
    · exact Or.inr (Or.inr h)
    · exact Or.inr (Or.inl h)
  · rw [if_neg h]
    refine ⟨⟨fun hh => (by cases hh), fun hh => absurd ?_ h⟩, Or.inr rfl⟩
    rcases hh with hh | hh | hh
    · exact Or.inl hh
    · exact Or.inr (Or.inr hh)
    · exact Or.inr (Or.inl hh)

/-- C11, pad invariant.  The pad `(8 - (sigSize % 8)) % 8` that
`rpmReadSignature` and `rpmWriteSignature` compute lies between 0 and 7 and
makes `sigSize + pad` a multiple of 8, hence also `lead + sigSize + pad` when
the lead size is a multiple of 8.  A call of `rpmWriteSignature` that returns
0 has emitted the header image followed by exactly `pad` zero bytes, a region
whose length is a multiple of 8 when `headerSizeof` reports the length of the
image; and the call returns 0 whenever the descriptor accepts that many
bytes. -/
theorem pad_invariant (sigSize : Int) (lead : Nat) (cdc : Codec) (fd : OutFD) (h : Header) :
    (0 ≤ sigPad sigSize ∧ sigPad sigSize ≤ 7 ∧ (sigSize + sigPad sigSize) % 8 = 0)
    ∧ (lead % 8 = 0 → ((lead : Int) + sigSize + sigPad sigSize) % 8 = 0)
    ∧ ((rpmWriteSignature cdc fd h).1 = 0 →
        (rpmWriteSignature cdc fd h).2.out
          = fd.out ++ cdc.headerImage h
              ++ List.replicate (sigPad (cdc.headerSizeof h)).toNat 0
        ∧ (((cdc.headerImage h).length : Int) = cdc.headerSizeof h →
            (cdc.headerImage h
              ++ List.replicate (sigPad (cdc.headerSizeof h)).toNat 0).length % 8 = 0))
    ∧ ((cdc.headerImage h).length + (sigPad (cdc.headerSizeof h)).toNat ≤ fd.room →
        (rpmWriteSignature cdc fd h).1 = 0) := by
  have hp := sigPad_range sigSize
  refine ⟨hp, fun hl => by omega, fun hok => ⟨rpmWriteSignature_ok cdc fd h hok, fun hc => ?_⟩,
    rpmWriteSignature_room cdc fd h⟩
  have hq := sigPad_range (cdc.headerSizeof h)
  rw [List.length_append, List.length_replicate]
  omega

/-- The pad invariant on a 37-byte header behind a 96-byte lead: three zero
bytes are emitted. -/
theorem pad_invariant_witness :
    (rpmWriteSignature toyCodec ⟨[], 100⟩ toyHeader).2.out
        = toyImage toyHeader ++ [0, 0, 0]
      ∧ (toyImage toyHeader ++ [0, 0, 0]).length % 8 = 0
      ∧ ((96 : Int) + 37 + sigPad 37) % 8 = 0 :=
  ⟨((pad_invariant 37 96 toyCodec ⟨[], 100⟩ toyHeader).2.2.1 (by decide)).1,
   ((pad_invariant 37 96 toyCodec ⟨[], 100⟩ toyHeader).2.2.1 (by decide)).2 (by decide),
   (pad_invariant 37 96 toyCodec ⟨[], 100⟩ toyHeader).2.1 (by decide)⟩

/-- C12 at its failing input.  A header of 18 bytes without a SIZE entry, read
with sig type HEADERSIG, is answered OK with the file left at offset 18: the 6
pad bytes are not consumed (sig type DISABLE on the same bytes leaves the file
at offset 24), and when only one byte follows the header the answer is still
OK where sig type DISABLE answers SHORTREAD. -/
theorem headersig_without_size_skips_pad :
    toyCodec.headerRead (toyImage toyHeaderNoSize ++ [0, 0, 0, 0, 0, 0, 9, 9])
        = (some toyHeaderNoSize, 18)
    ∧ toyCodec.headerSizeof toyHeaderNoSize = 18 ∧ sigPad 18 = 6
    ∧ rpmReadSignature toyCodec 96
          ⟨toyImage toyHeaderNoSize ++ [0, 0, 0, 0, 0, 0, 9, 9], 0, some ⟨false, 26⟩⟩
          RPMSIGTYPE_HEADERSIG
        = (RPMRC_OK, some toyHeaderNoSize,
            ⟨toyImage toyHeaderNoSize ++ [0, 0, 0, 0, 0, 0, 9, 9], 18, some ⟨false, 26⟩⟩, [])
    ∧ (rpmReadSignature toyCodec 96
          ⟨toyImage toyHeaderNoSize ++ [0, 0, 0, 0, 0, 0, 9, 9], 0, some ⟨false, 26⟩⟩
          RPMSIGTYPE_DISABLE).2.2.1.pos = 24
    ∧ (rpmReadSignature toyCodec 96 ⟨toyImage toyHeaderNoSize ++ [0], 0, some ⟨false, 19⟩⟩
          RPMSIGTYPE_HEADERSIG).1 = RPMRC_OK
    ∧ (rpmReadSignature toyCodec 96 ⟨toyImage toyHeaderNoSize ++ [0], 0, some ⟨false, 19⟩⟩
          RPMSIGTYPE_DISABLE).1 = RPMRC_SHORTREAD := by
  decide

/-- C13 as stated fails.  The bytes emitted for a header that declares 24
bytes of data, taken as a regular file of 40 bytes, are answered BADSIZE with
no header; the bytes emitted for a header without a SIZE entry are answered OK
with only 18 of the 24 bytes consumed. -/
theorem round_trip_counterexample :
    (rpmWriteSignature toyCodec ⟨[], 100⟩ toyHeader).1 = 0
    ∧ toyCodec.headerRead (rpmWriteSignature toyCodec ⟨[], 100⟩ toyHeader).2.out
        = (some toyHeader, 37)
    ∧ (rpmWriteSignature toyCodec ⟨[], 100⟩ toyHeader).2.out.length = 40
    ∧ rpmReadSignature toyCodec 96
          ⟨(rpmWriteSignature toyCodec ⟨[], 100⟩ toyHeader).2.out, 0, some ⟨true, 40⟩⟩
          RPMSIGTYPE_HEADERSIG
        = (RPMRC_BADSIZE, none,
            ⟨(rpmWriteSignature toyCodec ⟨[], 100⟩ toyHeader).2.out, 40, some ⟨true, 40⟩⟩, [])
    ∧ (rpmWriteSignature toyCodec ⟨[], 100⟩ toyHeaderNoSize).1 = 0
    ∧ (rpmWriteSignature toyCodec ⟨[], 100⟩ toyHeaderNoSize).2.out.length = 24
    ∧ rpmReadSignature toyCodec 96
          ⟨(rpmWriteSignature toyCodec ⟨[], 100⟩ toyHeaderNoSize).2.out, 0, some ⟨false, 24⟩⟩
          RPMSIGTYPE_HEADERSIG
        = (RPMRC_OK, some toyHeaderNoSize,
            ⟨(rpmWriteSignature toyCodec ⟨[], 100⟩ toyHeaderNoSize).2.out, 18,
              some ⟨false, 24⟩⟩, []) := by
  decide

/-- C13, round trip.  Let `rpmWriteSignature` return 0 for a header `h` that
has a SIZE entry, let `checkSize` accept the file for the size that entry
declares, and let the codec read `h` back from the image it wrote.  Then
`rpmReadSignature` with sig type HEADERSIG, started where the writer started,
returns OK with the header `h` itself and leaves the file exactly at the end
of the bytes written (header and pad). -/
theorem round_trip (cdc : Codec) (sizeofLead : Nat) (w : OutFD) (h : Header) (post : List Nat)
    (st : Option Stat) (archSize : HeaderEntry)
    (hwrite : (rpmWriteSignature cdc w h).1 = 0)
    (hsize : headerGetEntry h RPMSIGTAG_SIZE = some archSize)
    (hcheck : checkSize sizeofLead st (cdc.headerSizeof h) (sigPad (cdc.headerSizeof h))
      (hostInt32 archSize.data) = RPMRC_OK)
    (hread : cdc.headerRead
        (cdc.headerImage h ++ List.replicate (sigPad (cdc.headerSizeof h)).toNat 0 ++ post)
      = (some h, (cdc.headerImage h).length)) :
    rpmReadSignature cdc sizeofLead
        ⟨(rpmWriteSignature cdc w h).2.out ++ post, w.out.length, st⟩ RPMSIGTYPE_HEADERSIG
      = (RPMRC_OK, some h,
          ⟨(rpmWriteSignature cdc w h).2.out ++ post, (rpmWriteSignature cdc w h).2.out.length, st⟩,
          []) := by
  have hp := sigPad_range (cdc.headerSizeof h)
  have hout := rpmWriteSignature_ok cdc w h hwrite
  have hdrop : ((rpmWriteSignature cdc w h).2.out ++ post).drop w.out.length
      = cdc.headerImage h ++ List.replicate (sigPad (cdc.headerSizeof h)).toNat 0 ++ post := by
    rw [hout, List.append_assoc, List.append_assoc, List.drop_left, List.append_assoc]
  unfold rpmReadSignature
  simp only [hdrop, hread, hsize, hcheck]
  rw [readPad_enough _ _ _ _ hp.1 (by
    simp only [hout, List.length_append, List.length_replicate]; omega)]
  unfold readFinish
  simp only [if_true, hout, List.length_append, List.length_replicate]

/-- The round trip for a header that declares 24 bytes of data, written
behind a 96-byte lead and followed by 24 bytes. -/
theorem round_trip_witness :
    rpmReadSignature toyCodec 96
        ⟨(rpmWriteSignature toyCodec ⟨List.replicate 96 1, 100⟩ toyHeader).2.out
          ++ List.replicate 24 2, 96, some ⟨true, 160⟩⟩ RPMSIGTYPE_HEADERSIG
      = (RPMRC_OK, some toyHeader,
          ⟨(rpmWriteSignature toyCodec ⟨List.replicate 96 1, 100⟩ toyHeader).2.out
            ++ List.replicate 24 2,
            (rpmWriteSignature toyCodec ⟨List.replicate 96 1, 100⟩ toyHeader).2.out.length,
            some ⟨true, 160⟩⟩, []) :=
  round_trip toyCodec 96 ⟨List.replicate 96 1, 100⟩ toyHeader (List.replicate 24 2)
    (some ⟨true, 160⟩) ⟨RPMSIGTAG_SIZE, RPM_INT32_TYPE, int32Bytes 24, 1⟩
    (by decide) (by decide) (by decide) (by decide)

/-- C14 as stated fails.  With a null signature payload (tag MD5) and with a
null Dig bag (tag PGP) `rpmVerifySignature` answers UNKNOWN, not NOKEY. -/
theorem null_arguments_counterexample :
    (rpmVerifySignature (toyEnv RPMSIG_OK true)
        { toyTs RPMSIGTAG_MD5 [] 16 117 (toyParams PGPPUBKEYALGO_RSA PGPHASHALGO_MD5 (3, 3))
          with sig := none } []).1 = RPMSIG_UNKNOWN
    ∧ (rpmVerifySignature (toyEnv RPMSIG_OK true)
        { toyTs RPMSIGTAG_PGP [7] 1 117 (toyParams PGPPUBKEYALGO_RSA PGPHASHALGO_MD5 (3, 3))
          with dig := none } []).1 = RPMSIG_UNKNOWN := by
  decide

/-- C14, null arguments.  When the signature payload or the Dig bag is null,
`rpmVerifySignature` answers UNKNOWN.  When both are present and the length
is positive, a null digest context of the tag (`md5ctx` for MD5, PGP, PGP5 and
RSA, `sha1ctx` for GPG, `hdrsha1ctx` for SHA1 and DSA) or, for a public-key
tag, null packet parameters give NOKEY. -/
theorem null_arguments (env : Env) (ts : rpmts) (result : List Char) :
    ((ts.sig = none ∨ ts.dig = none) →
      (rpmVerifySignature env ts result).1 = RPMSIG_UNKNOWN)
    ∧ (∀ sig dig, ts.sig = some sig → 0 < ts.siglen → ts.dig = some dig →
        ((ts.sigtag = RPMSIGTAG_MD5 ∧ dig.md5ctx = none)
          ∨ (ts.sigtag = RPMSIGTAG_SHA1 ∧ dig.hdrsha1ctx = none)
          ∨ ((ts.sigtag = RPMSIGTAG_PGP ∨ ts.sigtag = RPMSIGTAG_PGP5
                ∨ ts.sigtag = RPMSIGTAG_RSA) ∧ (dig.md5ctx = none ∨ ts.sigp = none))
          ∨ (ts.sigtag = RPMSIGTAG_GPG ∧ (dig.sha1ctx = none ∨ ts.sigp = none))
          ∨ (ts.sigtag = RPMSIGTAG_DSA ∧ (dig.hdrsha1ctx = none ∨ ts.sigp = none))) →
        (rpmVerifySignature env ts result).1 = RPMSIG_NOKEY) := by
  constructor
  · rintro (h | h)
    · simp only [rpmVerifySignature, h]
    · cases hs : ts.sig <;> simp only [rpmVerifySignature, h, hs]
  · intro sig dig hsig hlen hdig hcase
    have hl : ¬ ts.siglen ≤ 0 := by omega
    rcases hcase with ⟨ht, hc⟩ | ⟨ht, hc⟩ | ⟨ht, hc⟩ | ⟨ht, hc⟩ | ⟨ht, hc⟩
    · simp only [rpmVerifySignature, hsig, hdig, hl, if_false, ht, hc]
      exact verifyMD5Signature_null env ts _
    · simp only [rpmVerifySignature, hsig, hdig, hl, if_false, ht, hc]
      exact verifySHA1Signature_null env ts _
    · rcases ht with ht | ht | ht <;>
        simp only [rpmVerifySignature, hsig, hdig, hl, if_false, ht] <;>
        exact verifyPGPSignature_null env ts _ _ hc
    · simp only [rpmVerifySignature, hsig, hdig, hl, if_false, ht]
      exact verifyGPGSignature_null env ts _ _ hc
    · simp only [rpmVerifySignature, hsig, hdig, hl, if_false, ht]
      exact verifyGPGSignature_null env ts _ _ hc

/-- Null arguments on concrete states: a null payload gives UNKNOWN, null
packet parameters under tag GPG give NOKEY. -/
theorem null_arguments_witness :
    (rpmVerifySignature (toyEnv RPMSIG_OK true)
        { toyTs RPMSIGTAG_MD5 [] 16 117 (toyParams PGPPUBKEYALGO_RSA PGPHASHALGO_MD5 (3, 3))
          with sig := none } []).1 = RPMSIG_UNKNOWN
    ∧ (rpmVerifySignature (toyEnv RPMSIG_OK true)
        { toyTs RPMSIGTAG_GPG [7] 1 117 (toyParams PGPPUBKEYALGO_DSA PGPHASHALGO_SHA1 (3, 3))
          with sigp := none } []).1 = RPMSIG_NOKEY :=
  ⟨(null_arguments (toyEnv RPMSIG_OK true)
      { toyTs RPMSIGTAG_MD5 [] 16 117 (toyParams PGPPUBKEYALGO_RSA PGPHASHALGO_MD5 (3, 3))
        with sig := none } []).1 (Or.inl rfl),
   (null_arguments (toyEnv RPMSIG_OK true)
      { toyTs RPMSIGTAG_GPG [7] 1 117 (toyParams PGPPUBKEYALGO_DSA PGPHASHALGO_SHA1 (3, 3))
        with sigp := none } []).2 [7] (toyDig 117) rfl (by decide) rfl
      (Or.inr (Or.inr (Or.inr (Or.inl ⟨rfl, Or.inr rfl⟩))))⟩

/-- C15, GPG piggyback.  Whenever `rpmAddSignature` with tag GPG returns 0,
the signature header has gained a GPG BIN entry holding the packet of the
external signer followed by a DSA BIN entry.  After the signer has succeeded
and the GPG entry has been added, the call is the header-only DSA signing
`makeHDRSignature` on the extended header, result and all.  For every tag
other than GPG the header is left as it was or gains a single entry, which
carries the requested tag. -/
theorem gpg_piggyback (env : SignEnv) (sig : Header) (file : List Char)
    (passPhrase : Option (List Char)) :
    ((rpmAddSignature env sig file RPMSIGTAG_GPG passPhrase).1 = 0 →
      ∃ pkt dsa : List Nat × Int, env.makeGPGSignature file passPhrase = some pkt
        ∧ (rpmAddSignature env sig file RPMSIGTAG_GPG passPhrase).2
            = sig ++ [⟨RPMSIGTAG_GPG, RPM_BIN_TYPE, pkt.1, pkt.2⟩,
                      ⟨RPMSIGTAG_DSA, RPM_BIN_TYPE, dsa.1, dsa.2⟩])
    ∧ (∀ pkt : List Nat × Int, env.makeGPGSignature file passPhrase = some pkt →
        env.headerAddOk sig ⟨RPMSIGTAG_GPG, RPM_BIN_TYPE, pkt.1, pkt.2⟩ = true →
        rpmAddSignature env sig file RPMSIGTAG_GPG passPhrase
          = makeHDRSignature env (sig ++ [⟨RPMSIGTAG_GPG, RPM_BIN_TYPE, pkt.1, pkt.2⟩]) file
              RPMSIGTAG_DSA passPhrase)
    ∧ (∀ sigTag, sigTag ≠ RPMSIGTAG_GPG →
        (rpmAddSignature env sig file sigTag passPhrase).2 = sig
        ∨ ∃ e : HeaderEntry, e.tag = sigTag
            ∧ (rpmAddSignature env sig file sigTag passPhrase).2 = sig ++ [e]) := by
  refine ⟨?_, ?_, ?_⟩
  · intro hret
    simp only [rpmAddSignature] at hret ⊢
    cases hg : env.makeGPGSignature file passPhrase with
    | none => rw [hg] at hret; cases hret
    | some pkt =>
      rw [hg] at hret
      simp only at hret ⊢
      rcases headerAddEntry_cases env.headerAddOk sig ⟨RPMSIGTAG_GPG, RPM_BIN_TYPE, pkt.1, pkt.2⟩
        with ⟨h1, h2⟩ | ⟨h1, h2⟩
      · rw [if_pos h1] at hret; cases hret
      · rw [if_neg (by rw [h1]; decide), h2] at hret ⊢
        simp only [makeHDRSignature] at hret ⊢
        cases hr : env.readHeader file with
        | none =>
          rw [hr] at hret
          have hret2 : (-1 : Int) = 0 := hret
          exact absurd hret2 (by decide)
        | some h =>
          rw [hr] at hret
          simp only at hret ⊢
          rcases signHeaderOnly_cases env (sig ++ [⟨RPMSIGTAG_GPG, RPM_BIN_TYPE, pkt.1, pkt.2⟩])
            h RPMSIGTAG_DSA env.makeGPGSignature passPhrase with ⟨hc, _⟩ | ⟨dsa, _, hd⟩
          · rw [hc] at hret
            have hret2 : (-1 : Int) = 0 := hret
            exact absurd hret2 (by decide)
          · exact ⟨pkt, dsa, rfl, by rw [hd]; simp⟩
  · intro pkt hg hadd
    simp only [rpmAddSignature, hg, headerAddEntry, hadd, if_true]
    simp
  · intro sigTag hne
    cases sigTag
    case RPMSIGTAG_GPG => exact absurd rfl hne
    case RPMSIGTAG_SIZE =>
      simp only [rpmAddSignature]
      split
      · exact Or.inl rfl
      · rcases addOne_cases env.headerAddOk sig _ with h | h
        · exact Or.inl h
        · exact Or.inr ⟨_, rfl, h⟩
    case RPMSIGTAG_MD5 =>
      simp only [rpmAddSignature]
      split
      · exact Or.inl rfl
      · rcases addOne_cases env.headerAddOk sig _ with h | h
        · exact Or.inl h
        · exact Or.inr ⟨_, rfl, h⟩
    case RPMSIGTAG_PGP5 =>
      simp only [rpmAddSignature]
      split
      · exact Or.inl rfl
      · rcases addOne_cases env.headerAddOk sig _ with h | h
        · exact Or.inl h
        · exact Or.inr ⟨_, rfl, h⟩
    case RPMSIGTAG_PGP =>
      simp only [rpmAddSignature]
      split
      · exact Or.inl rfl
      · rcases addOne_cases env.headerAddOk sig _ with h | h
        · exact Or.inl h
        · exact Or.inr ⟨_, rfl, h⟩
    case RPMSIGTAG_RSA =>
      rcases makeHDRSignature_cases env sig file RPMSIGTAG_RSA passPhrase
        with ⟨_, h⟩ | ⟨e, _, h, ht, _⟩
      · exact Or.inl h
      · exact Or.inr ⟨e, ht, h⟩
    case RPMSIGTAG_DSA =>
      rcases makeHDRSignature_cases env sig file RPMSIGTAG_DSA passPhrase
        with ⟨_, h⟩ | ⟨e, _, h, ht, _⟩
      · exact Or.inl h
      · exact Or.inr ⟨e, ht, h⟩
    case RPMSIGTAG_SHA1 =>
      rcases makeHDRSignature_cases env sig file RPMSIGTAG_SHA1 passPhrase
        with ⟨_, h⟩ | ⟨e, _, h, ht, _⟩
      · exact Or.inl h
      · exact Or.inr ⟨e, ht, h⟩
    case RPMSIGTAG_LEMD5_1 => exact Or.inl rfl
    case RPMSIGTAG_LEMD5_2 => exact Or.inl rfl
    case other n => exact Or.inl rfl

/-- The piggyback with a signer that always succeeds: the empty header gains
a GPG entry and a DSA entry. -/
theorem gpg_piggyback_witness :
    (rpmAddSignature toySignEnv [] "pkg".toList RPMSIGTAG_GPG none).1 = 0
    ∧ ∃ pkt dsa : List Nat × Int, toySignEnv.makeGPGSignature "pkg".toList none = some pkt
        ∧ (rpmAddSignature toySignEnv [] "pkg".toList RPMSIGTAG_GPG none).2
            = [] ++ [⟨RPMSIGTAG_GPG, RPM_BIN_TYPE, pkt.1, pkt.2⟩,
                     ⟨RPMSIGTAG_DSA, RPM_BIN_TYPE, dsa.1, dsa.2⟩] :=
  ⟨by decide, (gpg_piggyback toySignEnv [] "pkg".toList none).1 (by decide)⟩

/-- C16, legacy internal types.  For sig type MD5 and for sig type MD5_PGP
`rpmReadSignature` returns FAIL, which is not OK, reports BADSIGTYPE, hands
back no header and leaves the file where it was. -/
theorem legacy_types_rejected (cdc : Codec) (sizeofLead : Nat) (fd : FD) :
    rpmReadSignature cdc sizeofLead fd RPMSIGTYPE_MD5
        = (RPMRC_FAIL, none, fd, [rpmErrCode.RPMERR_BADSIGTYPE])
    ∧ rpmReadSignature cdc sizeofLead fd RPMSIGTYPE_MD5_PGP
        = (RPMRC_FAIL, none, fd, [rpmErrCode.RPMERR_BADSIGTYPE])
    ∧ (rpmReadSignature cdc sizeofLead fd RPMSIGTYPE_MD5).1 ≠ RPMRC_OK
    ∧ (rpmReadSignature cdc sizeofLead fd RPMSIGTYPE_MD5_PGP).1 ≠ RPMRC_OK := by
  refine ⟨rfl, rfl, ?_, ?_⟩ <;> (intro h; cases h)

/-- C17, EMSA block.  For a text `d` of 32 characters, none of them the
terminator, the string `verifyPGPSignature` builds in `hexstr` is "0001", 182
characters 'f', "00", the DER text "3020300c06082a864886f70d020505000410" and
`d`: 256 characters.  Every one of the 257 cells of the buffer has been
written, no store fell outside it, and `dig->rsahm` is set from that string
whenever the finalized digest text is `d`. -/
theorem emsa_block (d : List Char) (hlen : d.length = 32) (hnul : NUL ∉ d) :
    (rsaHexstr d).str
        = "0001".toList ++ List.replicate 182 'f' ++ "00".toList
            ++ "3020300c06082a864886f70d020505000410".toList ++ d
    ∧ (rsaHexstr d).str.length = 256
    ∧ (rsaHexstr d).cells
        = ("0001".toList ++ List.replicate 182 'f' ++ "00".toList
            ++ "3020300c06082a864886f70d020505000410".toList ++ d ++ [NUL]).map some
    ∧ (rsaHexstr d).cells.length = 2 * ((1024 + 7) / 8) + 1
    ∧ (∀ c ∈ (rsaHexstr d).cells, c ≠ none)
    ∧ (rsaHexstr d).oob = false
    ∧ ∀ (env : Env) (ts : rpmts) (dig : pgpDig) (sigp : pgpDigParams) (ctx : Nat),
        (dupUpdateFinalHex env ts sigp ctx).1 = d →
        (pgpLookupState env ts dig sigp ctx).dig.map (fun g => g.rsahm)
          = some (mp32nsethex ("0001".toList ++ List.replicate 182 'f' ++ "00".toList
              ++ "3020300c06082a864886f70d020505000410".toList ++ d)) := by
  refine ⟨rsaHexstr_str d hlen hnul, ?_, rsaHexstr_cells d hlen, ?_, ?_, ?_, ?_⟩
  · rw [rsaHexstr_str d hlen hnul, List.length_append, length_emsa_head, hlen]
  · rw [rsaHexstr_cells d hlen, List.length_map, List.length_append, List.length_append,
      length_emsa_head, hlen]
    rfl
  · intro c hc
    rw [rsaHexstr_cells d hlen] at hc
    obtain ⟨x, _, hx⟩ := List.mem_map.mp hc
    rw [← hx]; exact Option.some_ne_none x
  · rw [rsaHexstr_buf d hlen]
  · intro env ts dig sigp ctx hd
    have hs := rsaHexstr_str d hlen hnul
    rw [← hd] at hs
    simp only [pgpLookupState, Option.map_some']
    rw [hs, hd]

/-- The EMSA block for the hex text of a concrete 16-byte digest. -/
theorem emsa_block_witness :
    (rsaHexstr (pgpHexCvt (toyDigest DigestAlgo.md5 [1, 2, 3]))).str
        = "0001".toList ++ List.replicate 182 'f' ++ "00".toList
            ++ "3020300c06082a864886f70d020505000410".toList
            ++ pgpHexCvt (toyDigest DigestAlgo.md5 [1, 2, 3])
    ∧ (rsaHexstr (pgpHexCvt (toyDigest DigestAlgo.md5 [1, 2, 3]))).oob = false :=
  ⟨(emsa_block (pgpHexCvt (toyDigest DigestAlgo.md5 [1, 2, 3])) (by decide)
      (nul_not_mem_pgpHexCvt _)).1,
   (emsa_block (pgpHexCvt (toyDigest DigestAlgo.md5 [1, 2, 3])) (by decide)
      (nul_not_mem_pgpHexCvt _)).2.2.2.2.2.1⟩

/-- C18, duplicate before finalize.  A call of `rpmVerifySignature`, whatever
the tag, leaves every digest context object as it was (the heap gains at most
one cell, the released duplicate) and leaves `md5ctx`, `sha1ctx` and
`hdrsha1ctx` of the Dig bag as they were.  Hence the digest a later
verification finalizes from any context, with or without hashed packet data,
is the digest it would have finalized without the earlier call. -/
theorem dup_before_finalize (env : Env) (ts : rpmts) (result : List Char) :
    ((rpmVerifySignature env ts result).2.1.heap = ts.heap
        ∨ (rpmVerifySignature env ts result).2.1.heap = ts.heap ++ [none])
    ∧ (∀ p : Nat, (rpmVerifySignature env ts result).2.1.ctxAt p = ts.ctxAt p)
    ∧ (rpmVerifySignature env ts result).2.1.dig.map
          (fun g => (g.md5ctx, g.sha1ctx, g.hdrsha1ctx))
        = ts.dig.map (fun g => (g.md5ctx, g.sha1ctx, g.hdrsha1ctx))
    ∧ (∀ (sig : Option (List Nat)) (siglen : Int) (tag : SigTag) (sp : Option pgpDigParams)
        (p : Nat),
        (rpmDigestFinal env
            (rpmDigestDup { (rpmVerifySignature env ts result).2.1 with
              sig := sig, siglen := siglen, sigtag := tag, sigp := sp } p).2
            (rpmDigestDup { (rpmVerifySignature env ts result).2.1 with
              sig := sig, siglen := siglen, sigtag := tag, sigp := sp } p).1).1
          = (rpmDigestFinal env
              (rpmDigestDup { ts with sig := sig, siglen := siglen, sigtag := tag, sigp := sp } p).2
              (rpmDigestDup { ts with sig := sig, siglen := siglen, sigtag := tag, sigp := sp }
                p).1).1)
    ∧ (∀ (sig : Option (List Nat)) (siglen : Int) (tag : SigTag) (sp : Option pgpDigParams)
        (sigp : pgpDigParams) (p : Nat),
        (dupUpdateFinalHex env { (rpmVerifySignature env ts result).2.1 with
            sig := sig, siglen := siglen, sigtag := tag, sigp := sp } sigp p).1
          = (dupUpdateFinalHex env
              { ts with sig := sig, siglen := siglen, sigtag := tag, sigp := sp } sigp p).1) := by
  have hf := rpmVerifySignature_frame env ts result
  have hctx := ctxAt_of_heap ts (rpmVerifySignature env ts result).2.1 hf.1
  refine ⟨hf.1, hctx, hf.2, ?_, ?_⟩
  · intro sig siglen tag sp p
    rw [dupFinal_fst, dupFinal_fst]
    exact congrArg (fun c : DigestCtx => env.digest c.algo c.data) (hctx p)
  · intro sig siglen tag sp sigp p
    rw [dupUpdateFinalHex_fst, dupUpdateFinalHex_fst]
    exact congrArg
      (fun c : DigestCtx => pgpHexCvt (env.digest c.algo (c.data ++ hashedData sigp))) (hctx p)

/-- C19, header only on success.  For every sig type and every file,
`rpmReadSignature` returns OK or hands back no header; for sig type NONE it
returns OK, hands back no header and reads nothing. -/
theorem header_only_on_success (cdc : Codec) (sizeofLead : Nat) (fd : FD) (sig_type : sigType) :
    ((rpmReadSignature cdc sizeofLead fd sig_type).1 = RPMRC_OK
        ∨ (rpmReadSignature cdc sizeofLead fd sig_type).2.1 = none)
    ∧ rpmReadSignature cdc sizeofLead fd RPMSIGTYPE_NONE = (RPMRC_OK, none, fd, []) := by
  refine ⟨?_, rfl⟩
  unfold rpmReadSignature
  split
  · exact readFinish_header _ _ _ _
  · split <;> exact readFinish_header _ _ _ _
  · exact readFinish_header _ _ _ _
  · exact readFinish_header _ _ _ _
  · split
    · exact readFinish_header _ _ _ _
    · split
      · exact readFinish_header _ _ _ _
      · exact readPad_header _ _ _ _
  · split
    · exact readFinish_header _ _ _ _
    · exact readPad_header _ _ _ _
  · exact readFinish_header _ _ _ _

end RpmSig
